import Mathlib

/-!
# Casio PB-1000 / PB-2000c driver: bank switching and keyboard scanning

A shallow embedding of `src/mame/drivers/pb1000.cpp` (class `pb1000_state`).
Machine integers are natural numbers with explicit truncation at the width of
the C++ type; framework objects (timer, memory bank, input line, ioports) are
represented by the data the driver passes to them.
-/

namespace PB1000

/-! ## Framework values -/

/-- Value of an `attotime` argument as the driver builds it: `attotime::never`
or `attotime::from_hz(hz)`. -/
inductive attotime where
  | never
  | from_hz (hz : Nat)
  deriving DecidableEq, Repr

/-- What the last `emu_timer::adjust(start_delay, param, period)` call programmed
into the timer (the driver always passes `param = 0`). -/
structure emu_timer where
  start_delay : attotime
  period : attotime
  deriving DecidableEq, Repr

/-- The call `adjust(start_delay, 0, period)` on a timer. -/
def emu_timer.adjust (_t : emu_timer) (start_delay period : attotime) : emu_timer :=
  { start_delay := start_delay, period := period }

/-- State passed to `set_input_line`: `ASSERT_LINE` or `CLEAR_LINE`. -/
inductive line_state where
  | CLEAR_LINE
  | ASSERT_LINE
  deriving DecidableEq, Repr

/-- The macro `BIT(x, n)`, that is `(x >> n) & 1`. -/
def BIT (x n : Nat) : Nat := (x >>> n) &&& 1

/-! ## Machine configuration and driver state -/

/-- What `machine_start` finds in the running machine: whether the optional
card slot devices exist, and the base pointers of the memory regions that
`memregion` looks up (`none` when the lookup yields no region). The `rom`
region is declared by every ROM set of the driver. -/
structure machine_config where
  card1 : Bool
  card2 : Bool
  rom : Nat
  card1_region : Option Nat
  card2_region : Option Nat
  deriving DecidableEq, Repr

/-- The members of `pb1000_state`, with the base pointer of `membank("bank1")`
and the sequence of levels driven on the `HD61700_KEY_INT` input line. Region
pointers are represented by the region's base; `none` is `nullptr`. -/
structure pb1000_state where
  m_card1 : Bool
  m_card2 : Bool
  m_kb_timer : emu_timer
  m_kb_matrix : Nat
  m_gatearray : Fin 2 → Nat
  m_rom_reg : Nat
  m_card1_reg : Option Nat
  m_card2_reg : Option Nat
  bank1 : Nat
  key_int : List line_state

/-- External input state polled by the keyboard read: the thirteen row ports
`KO0` .. `KO12` (indexed by row) and the digitizer ports `POSX`, `POSY`, `TOUCH`. -/
structure input_state where
  m_io_keyboard : Nat → Nat
  POSX : Nat
  POSY : Nat
  TOUCH : Nat

/-! ## Driver operations -/

/-- Assignment `m_gatearray[offset] = v`. -/
def set_gatearray (g : Fin 2 → Nat) (offset : Fin 2) (v : Nat) : Fin 2 → Nat :=
  fun i => if i = offset then v else g i

/-- The member `pb1000_state::gatearray_w(offs_t offset, uint16_t data)`. -/
def gatearray_w (s : pb1000_state) (offset : Fin 2) (data : Nat) : pb1000_state :=
  let data := data % 65536
  let g := set_gatearray s.m_gatearray offset ((data &&& 0xff) % 256)
  let s := { s with m_gatearray := g }
  match decide (g 0 ≠ 0) && s.m_card1, s.m_card1_reg with
  | true, some card1_base => { s with bank1 := card1_base }
  | _, _ =>
    match decide (g 1 ≠ 0) && s.m_card2, s.m_card2_reg with
    | true, some card2_base => { s with bank1 := card2_base }
    | _, _ => { s with bank1 := s.m_rom_reg }

/-- The member `pb1000_state::read_touchscreen(uint8_t line)`. The comparison
`x == line-7` is made on `int` operands, so it is an integer comparison. -/
def read_touchscreen (inp : input_state) (line : Nat) : Nat :=
  let line := line % 256
  let x := (inp.POSX / 0x40) % 256
  let y := (inp.POSY / 0x40) % 256
  if inp.TOUCH ≠ 0 then
    if (x : Int) = (line : Int) - 7 then
      (0x1000 <<< y) % 65536
    else 0x0000
  else 0x0000

/-- Body of the loop `for (u8 line = from; line < bound; line++) body`, run on
the accumulator `data`; `n` counts the iterations still to make. -/
def for_lines (body : Nat → Nat → Nat) : Nat → Nat → Nat → Nat
  | 0, _, data => data
  | n + 1, line, data => for_lines body n (line + 1) (body line data)

/-- The member `pb1000_state::pb1000_kb_r()`. -/
def pb1000_kb_r (s : pb1000_state) (inp : input_state) : Nat :=
  let kb := (s.m_kb_matrix &&& 15) % 256
  if kb = 13 then
    for_lines (fun line data =>
      let data := (data ||| inp.m_io_keyboard line) % 65536
      (data ||| read_touchscreen inp line) % 65536) (13 - 1) 1 0
  else if kb < 13 then
    let data := inp.m_io_keyboard kb % 65536
    (data ||| read_touchscreen inp kb) % 65536
  else 0

/-- The member `pb1000_state::pb2000c_kb_r()`. -/
def pb2000c_kb_r (s : pb1000_state) (inp : input_state) : Nat :=
  let kb := (s.m_kb_matrix &&& 15) % 256
  if kb = 13 then
    for_lines (fun line data => (data ||| inp.m_io_keyboard line) % 65536) (12 - 1) 1 0
  else if kb < 12 then
    inp.m_io_keyboard kb % 65536
  else 0

/-- The member `pb1000_state::kb_matrix_w(uint8_t data)`. -/
def kb_matrix_w (s : pb1000_state) (data : Nat) : pb1000_state :=
  let data := data % 256
  let t :=
    if BIT data 7 ≠ 0 then
      if ¬ (BIT s.m_kb_matrix 7 ≠ 0) then
        s.m_kb_timer.adjust attotime.never attotime.never
      else s.m_kb_timer
    else
      if BIT s.m_kb_matrix 6 ≠ BIT data 6 then
        if BIT data 6 ≠ 0 then
          s.m_kb_timer.adjust (attotime.from_hz 32) (attotime.from_hz 32)
        else
          s.m_kb_timer.adjust (attotime.from_hz 256) (attotime.from_hz 256)
      else s.m_kb_timer
  { s with m_kb_timer := t, m_kb_matrix := data }

/-- The timer callback `pb1000_state::keyboard_timer`. -/
def keyboard_timer (s : pb1000_state) : pb1000_state :=
  let s := { s with key_int := s.key_int ++ [line_state.ASSERT_LINE] }
  { s with key_int := s.key_int ++ [line_state.CLEAR_LINE] }

/-- The member `pb1000_state::machine_start()`, run on the freshly constructed
driver state (members at their default initialisers; the slot devices resolved
from the configuration). The timer allocated here is programmed at 192 Hz. -/
def machine_start (cfg : machine_config) : pb1000_state :=
  let m_card1_reg := if cfg.card1 = true then cfg.card1_region else none
  let m_card2_reg := if cfg.card2 = true then cfg.card2_region else none
  { m_card1 := cfg.card1
    m_card2 := cfg.card2
    m_kb_timer := { start_delay := attotime.from_hz 192, period := attotime.from_hz 192 }
    m_kb_matrix := 0
    m_gatearray := fun _ => 0
    m_rom_reg := cfg.rom
    m_card1_reg := m_card1_reg
    m_card2_reg := m_card2_reg
    bank1 := cfg.rom
    key_int := [] }

/-! ## Runs of the machine -/

/-- One event delivered to the driver by the host: a gate array write, a keyboard
matrix control write, a keyboard read of either variant, or a scan timer tick. -/
inductive event where
  | gatearray_w (offset : Fin 2) (data : Nat)
  | kb_matrix_w (data : Nat)
  | pb1000_kb_r (inp : input_state)
  | pb2000c_kb_r (inp : input_state)
  | keyboard_timer

/-- State after the driver handles one event; the keyboard reads return a value
to the host and leave the state as it is. -/
def handle (s : pb1000_state) : event → pb1000_state
  | event.gatearray_w offset data => gatearray_w s offset data
  | event.kb_matrix_w data => kb_matrix_w s data
  | event.pb1000_kb_r _ => s
  | event.pb2000c_kb_r _ => s
  | event.keyboard_timer => keyboard_timer s

/-- State reached from `machine_start` after handling the events in order. -/
def run (cfg : machine_config) (evs : List event) : pb1000_state :=
  evs.foldl handle (machine_start cfg)

/-- The region a card slot offers to the bank window: the card's ROM region when
its latch is nonzero and the slot device is present, nothing otherwise. -/
def card_source (latch : Nat) (card : Bool) (reg : Option Nat) : Option Nat :=
  if latch ≠ 0 ∧ card = true then reg else none

/-- The bank selection precedence as a function of the latches and the card
regions: what slot 1 offers, else what slot 2 offers, else the internal ROM. -/
def selected_base (s : pb1000_state) : Nat :=
  ((card_source (s.m_gatearray 0) s.m_card1 s.m_card1_reg).orElse
    (fun _ => card_source (s.m_gatearray 1) s.m_card2 s.m_card2_reg)).getD s.m_rom_reg

/-! ## Definitions used in the statements -/

/-- A state for examples: both slot devices present, card regions at the given
bases, latches and control register as given. -/
def example_state (g0 g1 : Nat) (reg1 reg2 : Option Nat) : pb1000_state :=
  { m_card1 := true
    m_card2 := true
    m_kb_timer := { start_delay := attotime.from_hz 192, period := attotime.from_hz 192 }
    m_kb_matrix := 0
    m_gatearray := fun i => if i = 0 then g0 else g1
    m_rom_reg := 1000
    m_card1_reg := reg1
    m_card2_reg := reg2
    bank1 := 1000
    key_int := [] }

/-- The fields that bank selection reads, and the bank base itself. -/
def bank_view (s : pb1000_state) :
    (Fin 2 → Nat) × Bool × Bool × Option Nat × Option Nat × Nat × Nat :=
  (s.m_gatearray, s.m_card1, s.m_card2, s.m_card1_reg, s.m_card2_reg, s.m_rom_reg, s.bank1)

/-- Input state for examples: the given row ports, digitizer at (`x`, `y`) with the
given contact flag. -/
def example_input (rows : Nat → Nat) (x y touch : Nat) : input_state :=
  { m_io_keyboard := rows, POSX := x, POSY := y, TOUCH := touch }

/-- Following the spec's words ("the OR of individually-queried rows"): the bitwise OR,
over the listed rows, of what the 13-row read returns with that row selected. -/
def or_of_single_rows (s : pb1000_state) (inp : input_state) (rows : List Nat) : Nat :=
  rows.foldl (fun acc row => acc ||| pb1000_kb_r { s with m_kb_matrix := row } inp) 0

/-- Following the spec's words for the 12-row variant: the bitwise OR, over the listed
rows, of what the 12-row read returns with that row selected. -/
def or_of_single_rows_pb2000c (s : pb1000_state) (inp : input_state) (rows : List Nat) : Nat :=
  rows.foldl (fun acc row => acc ||| pb2000c_kb_r { s with m_kb_matrix := row } inp) 0

/-- Selector value `k` (a 4-bit value) triggers the all-rows OR of the 13-row read. -/
def all_rows_selector_pb1000 (k : Nat) : Prop :=
  k < 16 ∧ ∀ (s : pb1000_state) (inp : input_state), s.m_kb_matrix &&& 15 = k →
    pb1000_kb_r s inp = or_of_single_rows s inp (List.range' 1 12)

/-- Selector value `k` (a 4-bit value) triggers the all-rows OR of the 12-row read. -/
def all_rows_selector_pb2000c (k : Nat) : Prop :=
  k < 16 ∧ ∀ (s : pb1000_state) (inp : input_state), s.m_kb_matrix &&& 15 = k →
    pb2000c_kb_r s inp = or_of_single_rows_pb2000c s inp (List.range' 1 11)

/-- The timer programmed by `adjust(attotime::never, 0, attotime::never)`. -/
def timer_never : emu_timer := { start_delay := attotime.never, period := attotime.never }

/-- The timer programmed by `adjust(attotime::from_hz(hz), 0, attotime::from_hz(hz))`. -/
def timer_hz (hz : Nat) : emu_timer :=
  { start_delay := attotime.from_hz hz, period := attotime.from_hz hz }

/-- Element access `m_io_keyboard[line]` on the `required_ioport_array<13>`: the port
value for an index inside the array, `none` for an index outside it. -/
def io_keyboard_at (inp : input_state) (line : Nat) : Option Nat :=
  if line < 13 then some (inp.m_io_keyboard line) else none

/-- The loop of `for_lines` with a body that fails on an access outside the array. -/
def for_lines_checked (body : Nat → Nat → Option Nat) : Nat → Nat → Nat → Option Nat
  | 0, _, data => some data
  | n + 1, line, data =>
    (body line data).bind (fun data => for_lines_checked body n (line + 1) data)

/-- The member `pb1000_state::pb1000_kb_r()` with every access to `m_io_keyboard`
bounds-checked: `none` as soon as an index outside the array is used. -/
def pb1000_kb_r_checked (s : pb1000_state) (inp : input_state) : Option Nat :=
  let kb := (s.m_kb_matrix &&& 15) % 256
  if kb = 13 then
    for_lines_checked (fun line data =>
      (io_keyboard_at inp line).map (fun port =>
        let data := (data ||| port) % 65536
        (data ||| read_touchscreen inp line) % 65536)) (13 - 1) 1 0
  else if kb < 13 then
    (io_keyboard_at inp kb).map (fun port =>
      let data := port % 65536
      (data ||| read_touchscreen inp kb) % 65536)
  else some 0

/-- The member `pb1000_state::pb2000c_kb_r()` with every access to `m_io_keyboard`
bounds-checked: `none` as soon as an index outside the array is used. -/
def pb2000c_kb_r_checked (s : pb1000_state) (inp : input_state) : Option Nat :=
  let kb := (s.m_kb_matrix &&& 15) % 256
  if kb = 13 then
    for_lines_checked (fun line data =>
      (io_keyboard_at inp line).map (fun port => (data ||| port) % 65536)) (12 - 1) 1 0
  else if kb < 12 then
    (io_keyboard_at inp kb).map (fun port => port % 65536)
  else some 0

/-- The port table `INPUT_PORTS_START( pb1000 )`: for each row port `KO0` .. `KO12`, the
OR of the masks its `PORT_BIT` lines declare (all `IP_ACTIVE_HIGH`). `KO0` declares no
bit. -/
def pb1000_KO_bits : Nat → Nat
  | 0 => 0x0000
  | 1 => 0x0080 ||| 0x0020
  | 2 => 0x8000 ||| 0x4000 ||| 0x2000 ||| 0x0080 ||| 0x0020 ||| 0x0010 ||| 0x0008 |||
      0x0004 ||| 0x0002 ||| 0x0001
  | 3 => 0x8000 ||| 0x4000 ||| 0x2000 ||| 0x0080 ||| 0x0020 ||| 0x0010 ||| 0x0008 |||
      0x0004 ||| 0x0002 ||| 0x0001
  | 4 => 0x8000 ||| 0x4000 ||| 0x2000 ||| 0x0080 ||| 0x0020 ||| 0x0010 ||| 0x0008 |||
      0x0004 ||| 0x0002 ||| 0x0001
  | 5 => 0x8000 ||| 0x4000 ||| 0x2000 ||| 0x0080 ||| 0x0020 ||| 0x0010 ||| 0x0008 |||
      0x0004 ||| 0x0002 ||| 0x0001
  | 6 => 0x2000 ||| 0x0080 ||| 0x0020 ||| 0x0010 ||| 0x0008 ||| 0x0004 ||| 0x0002 ||| 0x0001
  | 7 => 0x0080 ||| 0x0020 ||| 0x0010 ||| 0x0008 ||| 0x0004 ||| 0x0002 ||| 0x0001
  | 8 => 0x0080 ||| 0x0020 ||| 0x0010 ||| 0x0008 ||| 0x0004 ||| 0x0002 ||| 0x0001
  | 9 => 0x0080 ||| 0x0020 ||| 0x0010 ||| 0x0008 ||| 0x0004 ||| 0x0002 ||| 0x0001
  | 10 => 0x0080 ||| 0x0020 ||| 0x0010 ||| 0x0008 ||| 0x0004 ||| 0x0002 ||| 0x0001
  | 11 => 0x0040
  | 12 => 0x0040
  | _ => 0x0000

/-- An input state the PB-1000 machine can present to `pb1000_kb_r`: every row port
reads only bits that the port table declares for it. -/
def pb1000_ports (inp : input_state) : Prop :=
  ∀ row, row < 13 → inp.m_io_keyboard row &&& pb1000_KO_bits row = inp.m_io_keyboard row

/-- Configuration for examples: no card slots, internal ROM at base 1000. -/
def example_config : machine_config :=
  { card1 := false, card2 := false, rom := 1000, card1_region := none, card2_region := none }

end PB1000

/-!
# BSMT2000 wavetable bridge

Only the class declaration `src/devices/sound/bsmt2000.h` is available: it gives the
members, their types and the signatures of the port handlers. The bodies of the
handlers are modelled from the specification.
-/

namespace BSMT2000

/-- The members of `bsmt2000_device` declared in the header (`m_left_data` and
`m_right_data` are `int16_t`, the other latches `uint16_t`), with the two single-slot
deferred-write cells behind `TIMER_ID_REG_WRITE` and `TIMER_ID_DATA_WRITE`: the value a
host write has scheduled and that has not been applied yet. -/
structure bsmt2000_device where
  m_register_select : Nat
  m_write_data : Nat
  m_rom_address : Nat
  m_rom_bank : Nat
  m_left_data : Int
  m_right_data : Int
  m_write_pending : Bool
  reg_write_timer : Option Nat
  data_write_timer : Option Nat
  deriving DecidableEq, Repr

/-- Conversion of a `uint16_t` argument to the `int16_t` member it is stored in. -/
def to_int16 (data : Nat) : Int :=
  if data % 65536 < 32768 then ((data % 65536 : Nat) : Int) else ((data % 65536 : Nat) : Int) - 65536

/-- Modelled from the spec: the body of `read_status` is missing. Status bit 0 is
"data consumed / ready for next write": set when no write is pending, clear while one
is. -/
def read_status (s : bsmt2000_device) : Nat :=
  if s.m_write_pending = true then 0 else 1

/-- Modelled from the spec: the body of `write_reg` is missing. The value is not
applied synchronously: it is put in the register-write cell, overwriting a value still
waiting there. -/
def write_reg (s : bsmt2000_device) (data : Nat) : bsmt2000_device :=
  { s with reg_write_timer := some (data % 65536) }

/-- Modelled from the spec: the body of `write_data` is missing. The value is not
applied synchronously: it is put in the data-write cell, overwriting a value still
waiting there. -/
def write_data (s : bsmt2000_device) (data : Nat) : bsmt2000_device :=
  { s with data_write_timer := some (data % 65536) }

/-- Modelled from the spec: the body of `device_timer` is missing; this is its
`TIMER_ID_REG_WRITE` case. The scheduled value becomes the latched register select. -/
def timer_reg_write (s : bsmt2000_device) : bsmt2000_device :=
  match s.reg_write_timer with
  | some data => { s with m_register_select := data, reg_write_timer := none }
  | none => s

/-- Modelled from the spec: the body of `device_timer` is missing; this is its
`TIMER_ID_DATA_WRITE` case. The scheduled value is latched in `m_write_data` and
`m_write_pending` is set. -/
def timer_data_write (s : bsmt2000_device) : bsmt2000_device :=
  match s.data_write_timer with
  | some data => { s with m_write_data := data, m_write_pending := true, data_write_timer := none }
  | none => s

/-- Modelled from the spec: the body of `tms_register_r` is missing. Returns the
latched register select. -/
def tms_register_r (s : bsmt2000_device) : Nat := s.m_register_select

/-- Modelled from the spec: the body of `tms_data_r` is missing. Returns the latched
`m_write_data` and clears `m_write_pending`. -/
def tms_data_r (s : bsmt2000_device) : Nat × bsmt2000_device :=
  (s.m_write_data, { s with m_write_pending := false })

/-- Modelled from the spec: the body of `tms_write_pending_r` is missing. Exposes
`m_write_pending` as a one-bit line. -/
def tms_write_pending_r (s : bsmt2000_device) : Nat :=
  if s.m_write_pending = true then 1 else 0

/-- Modelled from the spec: the body of `tms_rom_r` is missing. Returns the byte of the
sample ROM at the address formed from the bank (the page) and the address (the offset
in the 64K page). -/
def tms_rom_r (rom : Nat → Nat) (s : bsmt2000_device) : Nat :=
  rom (s.m_rom_bank * 65536 + s.m_rom_address) % 256

/-- Modelled from the spec: the body of `tms_rom_addr_w` is missing. Sets the ROM
address. -/
def tms_rom_addr_w (s : bsmt2000_device) (data : Nat) : bsmt2000_device :=
  { s with m_rom_address := data % 65536 }

/-- Modelled from the spec: the body of `tms_rom_bank_w` is missing. Sets the ROM
bank. -/
def tms_rom_bank_w (s : bsmt2000_device) (data : Nat) : bsmt2000_device :=
  { s with m_rom_bank := data % 65536 }

/-- Modelled from the spec: the body of `tms_left_w` is missing. Latches the signed
left output sample. -/
def tms_left_w (s : bsmt2000_device) (data : Nat) : bsmt2000_device :=
  { s with m_left_data := to_int16 data }

/-- Modelled from the spec: the body of `tms_right_w` is missing. Latches the signed
right output sample. -/
def tms_right_w (s : bsmt2000_device) (data : Nat) : bsmt2000_device :=
  { s with m_right_data := to_int16 data }

/-- Modelled from the spec: the body of `sound_stream_update` is missing. For a request
of `frames` output frames, every frame slot of the left channel receives the latched
left sample and every frame slot of the right channel the latched right sample. -/
def sound_stream_update (s : bsmt2000_device) (frames : Nat) : List Int × List Int :=
  (List.replicate frames s.m_left_data, List.replicate frames s.m_right_data)

/-- One step of the bridge: a host port access, the expiry of a deferred-write timer,
or a port access by the core. -/
inductive bridge_event where
  | read_status
  | write_reg (data : Nat)
  | write_data (data : Nat)
  | timer_reg_write
  | timer_data_write
  | tms_register_r
  | tms_data_r
  | tms_write_pending_r
  | tms_rom_r
  | tms_rom_addr_w (data : Nat)
  | tms_rom_bank_w (data : Nat)
  | tms_left_w (data : Nat)
  | tms_right_w (data : Nat)
  deriving DecidableEq, Repr

/-- State after one step; reads other than the core data read leave the state as it
is. -/
def bridge_step (s : bsmt2000_device) : bridge_event → bsmt2000_device
  | bridge_event.read_status => s
  | bridge_event.write_reg data => write_reg s data
  | bridge_event.write_data data => write_data s data
  | bridge_event.timer_reg_write => timer_reg_write s
  | bridge_event.timer_data_write => timer_data_write s
  | bridge_event.tms_register_r => s
  | bridge_event.tms_data_r => (tms_data_r s).2
  | bridge_event.tms_write_pending_r => s
  | bridge_event.tms_rom_r => s
  | bridge_event.tms_rom_addr_w data => tms_rom_addr_w s data
  | bridge_event.tms_rom_bank_w data => tms_rom_bank_w s data
  | bridge_event.tms_left_w data => tms_left_w s data
  | bridge_event.tms_right_w data => tms_right_w s data

/-- Whether a step is a host data write (the call or the delivery of its deferred
write). -/
def is_data_write : bridge_event → Bool
  | bridge_event.write_data _ => true
  | bridge_event.timer_data_write => true
  | _ => false

/-- Whether a step is the host call `write_data`. -/
def is_write_data_call : bridge_event → Bool
  | bridge_event.write_data _ => true
  | _ => false

/-- A bridge state for examples: all latches zero but the given data latch and pending
flag, no deferred write waiting. -/
def example_device (latched : Nat) (pending : Bool) : bsmt2000_device :=
  { m_register_select := 0, m_write_data := latched, m_rom_address := 0, m_rom_bank := 0,
    m_left_data := 0, m_right_data := 0, m_write_pending := pending,
    reg_write_timer := none, data_write_timer := none }

end BSMT2000

namespace PB1000

/-! # Theorems -/

/-! ## Gate array writes -/

/-- The gate array write changes only the latch array and the bank base. -/
theorem gatearray_w_frame (s : pb1000_state) (offset : Fin 2) (data : Nat) :
    (gatearray_w s offset data).m_card1 = s.m_card1 ∧
    (gatearray_w s offset data).m_card2 = s.m_card2 ∧
    (gatearray_w s offset data).m_card1_reg = s.m_card1_reg ∧
    (gatearray_w s offset data).m_card2_reg = s.m_card2_reg ∧
    (gatearray_w s offset data).m_rom_reg = s.m_rom_reg ∧
    (gatearray_w s offset data).m_kb_matrix = s.m_kb_matrix ∧
    (gatearray_w s offset data).m_kb_timer = s.m_kb_timer ∧
    (gatearray_w s offset data).key_int = s.key_int ∧
    (gatearray_w s offset data).m_gatearray =
      set_gatearray s.m_gatearray offset ((data % 65536 &&& 0xff) % 256) := by
  unfold gatearray_w
  simp only
  split
  · simp
  · split <;> simp

/-- The bank base after a gate array write is the selected base of the new state. -/
theorem gatearray_w_bank1 (s : pb1000_state) (offset : Fin 2) (data : Nat) :
    (gatearray_w s offset data).bank1 = selected_base (gatearray_w s offset data) := by
  obtain ⟨h1, h2, h3, h4, h5, -, -, -, h9⟩ := gatearray_w_frame s offset data
  unfold selected_base card_source
  rw [h1, h2, h3, h4, h5, h9]
  unfold gatearray_w
  simp only
  generalize set_gatearray s.m_gatearray offset ((data % 65536 &&& 0xff) % 256) = g
  cases hc1 : s.m_card1 <;> cases hr1 : s.m_card1_reg <;>
    cases hc2 : s.m_card2 <;> cases hr2 : s.m_card2_reg <;>
    by_cases hg0 : g 0 = 0 <;> by_cases hg1 : g 1 = 0 <;>
    simp [hg0, hg1, Option.orElse]

/-- C1: after `gatearray_w`, for either slot offset, any written value and any prior
state, the bank base follows the precedence on the updated latches: card 1's region
when latch 0 is nonzero and card 1 is present with a region; otherwise card 2's region
when latch 1 is nonzero and card 2 is present with a region (also when latch 0 is
nonzero but card 1 is absent or has no region); otherwise the internal ROM region. -/
theorem gatearray_w_precedence (s : pb1000_state) (offset : Fin 2) (data : Nat) :
    (∀ b1, (gatearray_w s offset data).m_gatearray 0 ≠ 0 → s.m_card1 = true →
        s.m_card1_reg = some b1 → (gatearray_w s offset data).bank1 = b1) ∧
    (∀ b2, ¬ ((gatearray_w s offset data).m_gatearray 0 ≠ 0 ∧ s.m_card1 = true ∧
          s.m_card1_reg.isSome = true) →
        (gatearray_w s offset data).m_gatearray 1 ≠ 0 → s.m_card2 = true →
        s.m_card2_reg = some b2 → (gatearray_w s offset data).bank1 = b2) ∧
    (¬ ((gatearray_w s offset data).m_gatearray 0 ≠ 0 ∧ s.m_card1 = true ∧
          s.m_card1_reg.isSome = true) →
      ¬ ((gatearray_w s offset data).m_gatearray 1 ≠ 0 ∧ s.m_card2 = true ∧
          s.m_card2_reg.isSome = true) →
      (gatearray_w s offset data).bank1 = s.m_rom_reg) := by
  obtain ⟨h1, h2, h3, h4, h5, -, -, -, -⟩ := gatearray_w_frame s offset data
  have hb := gatearray_w_bank1 s offset data
  rw [hb]
  unfold selected_base card_source
  rw [h1, h2, h3, h4, h5]
  generalize (gatearray_w s offset data).m_gatearray = g
  refine ⟨?_, ?_, ?_⟩
  · intro b1 hg hc hr
    simp [hg, hc, hr, Option.orElse]
  · intro b2 hn hg hc hr
    by_cases hg0 : g 0 = 0
    · simp [hg0, hg, hc, hr, Option.orElse]
    · by_cases hc1 : s.m_card1 = true
      · have hr1 : s.m_card1_reg = none := by
          cases hr1 : s.m_card1_reg with
          | none => rfl
          | some v => exact absurd ⟨hg0, hc1, by simp [hr1]⟩ hn
        simp [hg0, hc1, hr1, hg, hc, hr, Option.orElse]
      · simp [hg0, hc1, hg, hc, hr, Option.orElse]
  · intro hn1 hn2
    cases hc1 : s.m_card1 <;> cases hr1 : s.m_card1_reg <;>
      cases hc2 : s.m_card2 <;> cases hr2 : s.m_card2_reg <;>
      by_cases hg0 : g 0 = 0 <;> by_cases hg1 : g 1 = 0 <;>
      simp_all [Option.orElse]

/-- C1 at concrete states: latches {1,0} with card 1 valid give card 1's base whether
card 2 has a region or not; {0,1} with only card 2 valid gives card 2's base; {0,0}
gives the internal ROM base. -/
theorem gatearray_w_precedence_witness :
    (gatearray_w (example_state 0 0 (some 2000) (some 3000)) 0 1).bank1 = 2000 ∧
    (gatearray_w (example_state 0 0 (some 2000) none) 0 1).bank1 = 2000 ∧
    (gatearray_w (example_state 0 0 none (some 3000)) 1 1).bank1 = 3000 ∧
    (gatearray_w (example_state 1 0 none (some 3000)) 1 1).bank1 = 3000 ∧
    (gatearray_w (example_state 0 1 (some 2000) (some 3000)) 1 0).bank1 = 1000 ∧
    (gatearray_w (example_state 1 1 none none) 0 1).bank1 = 1000 :=
  ⟨(gatearray_w_precedence (example_state 0 0 (some 2000) (some 3000)) 0 1).1 2000
      (by decide) rfl rfl,
   (gatearray_w_precedence (example_state 0 0 (some 2000) none) 0 1).1 2000
      (by decide) rfl rfl,
   (gatearray_w_precedence (example_state 0 0 none (some 3000)) 1 1).2.1 3000
      (by decide) (by decide) rfl rfl,
   (gatearray_w_precedence (example_state 1 0 none (some 3000)) 1 1).2.1 3000
      (by decide) (by decide) rfl rfl,
   (gatearray_w_precedence (example_state 0 1 (some 2000) (some 3000)) 1 0).2.2
      (by decide) (by decide),
   (gatearray_w_precedence (example_state 1 1 none none) 0 1).2.2
      (by decide) (by decide)⟩

/-- The value latched by `gatearray_w` is the low byte of the written value. -/
theorem low_byte_eq (data : Nat) : ((data % 65536) &&& 0xff) % 256 = data &&& 0xff := by
  have h1 := Nat.and_pow_two_sub_one_eq_mod (data % 65536) 8
  have h2 := Nat.and_pow_two_sub_one_eq_mod data 8
  norm_num at h1 h2
  rw [h1, h2]
  omega

/-- Every latch after a gate array write, by slot. -/
theorem gatearray_w_latch (s : pb1000_state) (offset : Fin 2) (data : Nat) (i : Fin 2) :
    (gatearray_w s offset data).m_gatearray i =
      if i = offset then data &&& 0xff else s.m_gatearray i := by
  obtain ⟨-, -, -, -, -, -, -, -, h9⟩ := gatearray_w_frame s offset data
  rw [h9, low_byte_eq]
  rfl

/-- C2: slot 1 has priority whatever the write order. With both cards present and
holding a region, and two written values with nonzero low byte, writing latch 0 then
latch 1, or latch 1 then latch 0, ends with the same latches and with the bank base
at card 1's region. -/
theorem gatearray_w_slot1_priority (s : pb1000_state) (a b b1 b2 : Nat)
    (hc1 : s.m_card1 = true) (hr1 : s.m_card1_reg = some b1)
    (_hc2 : s.m_card2 = true) (_hr2 : s.m_card2_reg = some b2)
    (ha : a &&& 0xff ≠ 0) (_hb : b &&& 0xff ≠ 0) :
    (gatearray_w (gatearray_w s 0 a) 1 b).m_gatearray =
      (gatearray_w (gatearray_w s 1 b) 0 a).m_gatearray ∧
    (gatearray_w (gatearray_w s 0 a) 1 b).bank1 = b1 ∧
    (gatearray_w (gatearray_w s 1 b) 0 a).bank1 = b1 := by
  have e01 : (gatearray_w (gatearray_w s 0 a) 1 b).m_gatearray 0 = a &&& 0xff := by
    rw [gatearray_w_latch, gatearray_w_latch]; simp
  have e10 : (gatearray_w (gatearray_w s 1 b) 0 a).m_gatearray 0 = a &&& 0xff := by
    rw [gatearray_w_latch]; simp
  refine ⟨?_, ?_, ?_⟩
  · funext i
    rw [gatearray_w_latch, gatearray_w_latch, gatearray_w_latch, gatearray_w_latch]
    fin_cases i <;> simp
  · obtain ⟨f1, -, f3, -, -, -, -, -, -⟩ := gatearray_w_frame s 0 a
    obtain ⟨g1, -, g3, -, -, -, -, -, -⟩ := gatearray_w_frame (gatearray_w s 0 a) 1 b
    rw [gatearray_w_bank1]
    unfold selected_base card_source
    rw [e01, g1, g3, f1, f3, hc1, hr1]
    simp [ha, Option.orElse]
  · obtain ⟨f1, -, f3, -, -, -, -, -, -⟩ := gatearray_w_frame s 1 b
    obtain ⟨g1, -, g3, -, -, -, -, -, -⟩ := gatearray_w_frame (gatearray_w s 1 b) 0 a
    rw [gatearray_w_bank1]
    unfold selected_base card_source
    rw [e10, g1, g3, f1, f3, hc1, hr1]
    simp [ha, Option.orElse]

/-- C2 at a concrete state: both cards hold a region, `0x0101` is written to latch 0
and `0x00ff` to latch 1, in either order. -/
theorem gatearray_w_slot1_priority_witness :
    (gatearray_w (gatearray_w (example_state 0 0 (some 2000) (some 3000)) 0 0x0101) 1
        0x00ff).m_gatearray =
      (gatearray_w (gatearray_w (example_state 0 0 (some 2000) (some 3000)) 1 0x00ff) 0
        0x0101).m_gatearray ∧
    (gatearray_w (gatearray_w (example_state 0 0 (some 2000) (some 3000)) 0 0x0101) 1
        0x00ff).bank1 = 2000 ∧
    (gatearray_w (gatearray_w (example_state 0 0 (some 2000) (some 3000)) 1 0x00ff) 0
        0x0101).bank1 = 2000 :=
  gatearray_w_slot1_priority (example_state 0 0 (some 2000) (some 3000)) 0x0101 0x00ff
    2000 3000 rfl rfl rfl rfl (by decide) (by decide)

/-- C3: for either slot offset and every written value, `gatearray_w` stores exactly
`value & 0xFF` in the addressed latch and leaves the other latch and `m_kb_matrix`
unchanged; a value whose low byte is zero latches 0 and the addressed slot's card is
not selected: the base is then what the other slot offers, else the internal ROM. -/
theorem gatearray_w_stores_low_byte (s : pb1000_state) (offset : Fin 2) (data : Nat) :
    (gatearray_w s offset data).m_gatearray offset = data &&& 0xff ∧
    (∀ i, i ≠ offset → (gatearray_w s offset data).m_gatearray i = s.m_gatearray i) ∧
    (gatearray_w s offset data).m_kb_matrix = s.m_kb_matrix ∧
    (data &&& 0xff = 0 →
      (gatearray_w s offset data).m_gatearray offset = 0 ∧
      (offset = 0 → (gatearray_w s offset data).bank1 =
        (card_source (s.m_gatearray 1) s.m_card2 s.m_card2_reg).getD s.m_rom_reg) ∧
      (offset = 1 → (gatearray_w s offset data).bank1 =
        (card_source (s.m_gatearray 0) s.m_card1 s.m_card1_reg).getD s.m_rom_reg)) := by
  obtain ⟨f1, f2, f3, f4, f5, f6, -, -, -⟩ := gatearray_w_frame s offset data
  refine ⟨?_, ?_, f6, ?_⟩
  · rw [gatearray_w_latch]; simp
  · intro i hi
    rw [gatearray_w_latch]; simp [hi]
  · intro h0
    refine ⟨?_, ?_, ?_⟩
    · rw [gatearray_w_latch]; simp [h0]
    · intro ho
      subst ho
      rw [gatearray_w_bank1]
      unfold selected_base
      rw [f1, f2, f3, f4, f5, gatearray_w_latch, gatearray_w_latch]
      simp [h0, card_source, Option.orElse]
    · intro ho
      subst ho
      rw [gatearray_w_bank1]
      unfold selected_base
      have e0 : (gatearray_w s 1 data).m_gatearray 0 = s.m_gatearray 0 := by
        rw [gatearray_w_latch]; simp
      have e1 : (gatearray_w s 1 data).m_gatearray 1 = 0 := by
        rw [gatearray_w_latch]; simp [h0]
      rw [f1, f2, f3, f4, f5, e0, e1]
      generalize card_source (s.m_gatearray 0) s.m_card1 s.m_card1_reg = c
      cases c <;> simp [card_source, Option.orElse]

/-- C3 at a concrete write: `0x0100` written to latch 0 while latch 0 held 1 and both
cards hold a region latches 0 and the bank falls back to the internal ROM. -/
theorem gatearray_w_stores_low_byte_witness :
    (gatearray_w (example_state 1 0 (some 2000) (some 3000)) 0 0x0100).m_gatearray 0 = 0 ∧
    (gatearray_w (example_state 1 0 (some 2000) (some 3000)) 0 0x0100).bank1 = 1000 :=
  ⟨((gatearray_w_stores_low_byte (example_state 1 0 (some 2000) (some 3000)) 0 0x0100).2.2.2
      (by decide)).1,
   ((gatearray_w_stores_low_byte (example_state 1 0 (some 2000) (some 3000)) 0 0x0100).2.2.2
      (by decide)).2.1 rfl⟩

/-! ## Reachable states -/

/-- The selected base only depends on the bank view. -/
theorem selected_base_congr (s t : pb1000_state) (h : bank_view s = bank_view t) :
    selected_base s = selected_base t ∧ s.bank1 = t.bank1 := by
  simp only [bank_view, Prod.mk.injEq] at h
  obtain ⟨h1, h2, h3, h4, h5, h6, h7⟩ := h
  unfold selected_base
  rw [h1, h2, h3, h4, h5, h6]
  exact ⟨rfl, h7⟩

/-- Every event other than a gate array write leaves the bank view as it was. -/
theorem handle_bank_view (s : pb1000_state) (e : event)
    (he : ∀ offset data, e ≠ event.gatearray_w offset data) :
    bank_view (handle s e) = bank_view s := by
  cases e with
  | gatearray_w offset data => exact absurd rfl (he offset data)
  | kb_matrix_w data => rfl
  | pb1000_kb_r inp => rfl
  | pb2000c_kb_r inp => rfl
  | keyboard_timer => rfl

/-- One event keeps the bank base equal to the selected base. -/
theorem handle_selected (s : pb1000_state) (e : event)
    (h : s.bank1 = selected_base s) : (handle s e).bank1 = selected_base (handle s e) := by
  by_cases he : ∀ offset data, e ≠ event.gatearray_w offset data
  · obtain ⟨h1, h2⟩ := selected_base_congr _ _ (handle_bank_view s e he)
    rw [h1, h2]
    exact h
  · push_neg at he
    obtain ⟨offset, data, rfl⟩ := he
    exact gatearray_w_bank1 s offset data

/-- A property kept by every event holds along every run from a state that has it. -/
theorem foldl_handle_invariant (P : pb1000_state → Prop)
    (hstep : ∀ s e, P s → P (handle s e)) (evs : List event) :
    ∀ s, P s → P (evs.foldl handle s) := by
  induction evs with
  | nil => intro s hs; exact hs
  | cons e rest ih => intro s hs; exact ih (handle s e) (hstep s e hs)

/-- C4: in every state reached from `machine_start` by any sequence of gate array
writes, keyboard matrix writes, keyboard reads and timer ticks, the bank base is the
one selected by the current latches and card regions under the slot 1 / slot 2 /
internal ROM precedence. At `machine_start` the latches are {0,0} and the base is the
internal ROM, and no event other than a gate array write changes the latches, the
card regions or the base. -/
theorem run_bank1_selected (cfg : machine_config) (evs : List event) :
    (run cfg evs).bank1 = selected_base (run cfg evs) ∧
    ((machine_start cfg).m_gatearray 0 = 0 ∧ (machine_start cfg).m_gatearray 1 = 0 ∧
      (machine_start cfg).bank1 = (machine_start cfg).m_rom_reg) ∧
    (∀ (s : pb1000_state) (e : event), (∀ offset data, e ≠ event.gatearray_w offset data) →
      (handle s e).m_gatearray = s.m_gatearray ∧ (handle s e).bank1 = s.bank1 ∧
      (handle s e).m_card1 = s.m_card1 ∧ (handle s e).m_card2 = s.m_card2 ∧
      (handle s e).m_card1_reg = s.m_card1_reg ∧ (handle s e).m_card2_reg = s.m_card2_reg ∧
      (handle s e).m_rom_reg = s.m_rom_reg) := by
  refine ⟨?_, ⟨rfl, rfl, rfl⟩, ?_⟩
  · apply foldl_handle_invariant (fun s => s.bank1 = selected_base s) handle_selected
    simp [machine_start, selected_base, card_source, Option.orElse]
  · intro s e he
    have h := handle_bank_view s e he
    simp only [bank_view, Prod.mk.injEq] at h
    obtain ⟨h1, h2, h3, h4, h5, h6, h7⟩ := h
    exact ⟨h1, h7, h2, h3, h4, h5, h6⟩

/-! ## Digitizer and keyboard reads -/

/-- The digitizer contribution fits the 16-bit return type. -/
theorem read_touchscreen_lt (inp : input_state) (line : Nat) :
    read_touchscreen inp line < 65536 := by
  unfold read_touchscreen
  simp only
  split
  · split
    · exact Nat.mod_lt _ (by norm_num)
    · norm_num
  · norm_num

/-- C5: for every line (an 8-bit value), every X and Y in 0..255 and every contact
flag, `read_touchscreen` returns `0x1000 << (Y / 64)` when the contact flag is set
and `X / 64` equals `line - 7`, and 0 otherwise; in particular it returns 0 for every
line below 7. -/
theorem read_touchscreen_value (inp : input_state) (line : Nat)
    (hline : line < 256) (hx : inp.POSX < 256) (hy : inp.POSY < 256) :
    read_touchscreen inp line =
      (if inp.TOUCH ≠ 0 ∧ ((inp.POSX / 64 : Nat) : Int) = (line : Int) - 7
        then 0x1000 <<< (inp.POSY / 64) else 0) ∧
    (line < 7 → read_touchscreen inp line = 0) := by
  have hl : line % 256 = line := Nat.mod_eq_of_lt hline
  have hxb : inp.POSX / 64 < 4 := by omega
  have hyb : inp.POSY / 64 < 4 := by omega
  have hxm : inp.POSX / 64 % 256 = inp.POSX / 64 := Nat.mod_eq_of_lt (by omega)
  have hym : inp.POSY / 64 % 256 = inp.POSY / 64 := Nat.mod_eq_of_lt (by omega)
  have hsh : (0x1000 <<< (inp.POSY / 64)) % 65536 = 0x1000 <<< (inp.POSY / 64) := by
    generalize inp.POSY / 64 = y at hyb
    interval_cases y <;> rfl
  have hval : read_touchscreen inp line =
      (if inp.TOUCH ≠ 0 ∧ ((inp.POSX / 64 : Nat) : Int) = (line : Int) - 7
        then 0x1000 <<< (inp.POSY / 64) else 0) := by
    unfold read_touchscreen
    simp only [hl, hxm, hym, hsh]
    by_cases ht : inp.TOUCH ≠ 0
    · by_cases he : ((inp.POSX / 64 : Nat) : Int) = (line : Int) - 7
      · simp [ht, he]
      · simp [ht, he]
    · simp [ht]
  refine ⟨hval, ?_⟩
  intro h7
  rw [hval]
  have hne : ¬ (((inp.POSX / 64 : Nat) : Int) = (line : Int) - 7) := by omega
  exact if_neg (fun h => hne h.2)

/-- C5 at the documented inputs: contact set, X bucket 2, Y bucket 3 gives `0x8000` at
line 9 and 0 at line 5; contact clear gives 0 at line 9. -/
theorem read_touchscreen_value_witness :
    read_touchscreen (example_input (fun _ => 0) 130 200 1) 9 = 0x8000 ∧
    read_touchscreen (example_input (fun _ => 0) 130 200 1) 5 = 0 ∧
    read_touchscreen (example_input (fun _ => 0) 130 200 0) 9 = 0 :=
  ⟨(read_touchscreen_value (example_input (fun _ => 0) 130 200 1) 9
      (by decide) (by decide) (by decide)).1.trans (by decide),
   (read_touchscreen_value (example_input (fun _ => 0) 130 200 1) 5
      (by decide) (by decide) (by decide)).2 (by decide),
   (read_touchscreen_value (example_input (fun _ => 0) 130 200 0) 9
      (by decide) (by decide) (by decide)).1.trans (by decide)⟩

/-- The row selector `m_kb_matrix & 15` as the 8-bit local `kb`. -/
theorem kb_selector (m : Nat) : (m &&& 15) % 256 = m &&& 15 ∧ m &&& 15 < 16 := by
  have h := Nat.and_pow_two_sub_one_eq_mod m 4
  norm_num at h
  rw [h]
  omega

/-- Truncation to 16 bits distributes over bitwise OR. -/
theorem or_mod_65536 (a b : Nat) : (a ||| b) % 65536 = a % 65536 ||| b % 65536 := by
  apply Nat.eq_of_testBit_eq
  intro i
  have h : (65536 : Nat) = 2 ^ 16 := by norm_num
  rw [h]
  simp only [Nat.testBit_mod_two_pow, Nat.testBit_or]
  by_cases hi : i < 16 <;> simp [hi]

/-- The digitizer contributes nothing unless contact is made and the selected line is
the digitizer's scan line for the current X bucket. -/
theorem read_touchscreen_off_line (inp : input_state) (line : Nat)
    (h : ¬ (inp.TOUCH ≠ 0 ∧ inp.POSX / 64 % 256 + 7 = line % 256)) :
    read_touchscreen inp line = 0 := by
  unfold read_touchscreen
  simp only
  split
  · rename_i ht
    split
    · rename_i he
      exact absurd ⟨ht, by omega⟩ h
    · rfl
  · rfl

/-- The 13-row read with a single-row selector, as a formula. -/
theorem pb1000_kb_r_row (s : pb1000_state) (inp : input_state)
    (hkb : s.m_kb_matrix &&& 15 < 13) :
    pb1000_kb_r s inp =
      (inp.m_io_keyboard (s.m_kb_matrix &&& 15) % 65536) |||
        read_touchscreen inp (s.m_kb_matrix &&& 15) := by
  unfold pb1000_kb_r
  simp only [(kb_selector s.m_kb_matrix).1]
  rw [if_neg (by omega), if_pos hkb, or_mod_65536, Nat.mod_mod,
    Nat.mod_eq_of_lt (read_touchscreen_lt inp _)]

/-- C7: for every `m_kb_matrix` whose low 4 bits `kb` are below 13 (upper bits
arbitrary) and every input state, `pb1000_kb_r` returns row `kb`'s port bits ORed with
`read_touchscreen(kb)`: exactly the selected row's bits when the row is not the
digitizer's scan line for the current contact, and no other row's port influences the
result. -/
theorem pb1000_kb_r_single_row (s : pb1000_state) (inp : input_state)
    (hkb : s.m_kb_matrix &&& 15 < 13) :
    pb1000_kb_r s inp =
      (inp.m_io_keyboard (s.m_kb_matrix &&& 15) % 65536) |||
        read_touchscreen inp (s.m_kb_matrix &&& 15) ∧
    (¬ (inp.TOUCH ≠ 0 ∧ inp.POSX / 64 % 256 + 7 = s.m_kb_matrix &&& 15) →
      pb1000_kb_r s inp = inp.m_io_keyboard (s.m_kb_matrix &&& 15) % 65536) ∧
    (∀ rows : Nat → Nat,
      rows (s.m_kb_matrix &&& 15) = inp.m_io_keyboard (s.m_kb_matrix &&& 15) →
      pb1000_kb_r s { inp with m_io_keyboard := rows } = pb1000_kb_r s inp) := by
  refine ⟨pb1000_kb_r_row s inp hkb, ?_, ?_⟩
  · intro h
    have hsel : (s.m_kb_matrix &&& 15) % 256 = s.m_kb_matrix &&& 15 :=
      (kb_selector s.m_kb_matrix).1
    rw [pb1000_kb_r_row s inp hkb, read_touchscreen_off_line inp _ (by rw [hsel]; exact h)]
    simp
  · intro rows hrows
    rw [pb1000_kb_r_row s inp hkb, pb1000_kb_r_row s _ hkb]
    simp only [hrows]
    rfl

/-- C7 at a concrete read: `m_kb_matrix = 0x49` selects row 9; with row 9's port at
`0x0014`, another row's port at `0x0003` and contact at X bucket 2, Y bucket 3, the
read is `0x8014`. -/
theorem pb1000_kb_r_single_row_witness :
    pb1000_kb_r { example_state 0 0 none none with m_kb_matrix := 0x49 }
      (example_input (fun r => if r = 9 then 0x0014 else 0x0003) 130 200 1) = 0x8014 :=
  (pb1000_kb_r_single_row { example_state 0 0 none none with m_kb_matrix := 0x49 }
    (example_input (fun r => if r = 9 then 0x0014 else 0x0003) 130 200 1)
    (by decide)).1.trans (by decide)

/-- The 13-row read with row `row` selected individually. -/
theorem pb1000_kb_r_select_row (s : pb1000_state) (inp : input_state) (row : Nat)
    (hr : row < 13) :
    pb1000_kb_r { s with m_kb_matrix := row } inp =
      (inp.m_io_keyboard row % 65536) ||| read_touchscreen inp row := by
  have h15 : row &&& 15 = row := by interval_cases row <;> rfl
  have := pb1000_kb_r_row { s with m_kb_matrix := row } inp (by
    show row &&& 15 < 13
    rw [h15]; exact hr)
  simpa [h15] using this

/-- The 13-row read with the sentinel selector, as the OR of rows 1..12 with their
digitizer contributions. -/
theorem pb1000_kb_r_sentinel (s : pb1000_state) (inp : input_state)
    (hkb : s.m_kb_matrix &&& 15 = 13) :
    pb1000_kb_r s inp = or_of_single_rows s inp (List.range' 1 12) := by
  have hrow := pb1000_kb_r_select_row s inp
  have ht : ∀ line, read_touchscreen inp line % 65536 = read_touchscreen inp line :=
    fun line => Nat.mod_eq_of_lt (read_touchscreen_lt inp line)
  unfold pb1000_kb_r or_of_single_rows
  simp only [(kb_selector s.m_kb_matrix).1, hkb, if_true]
  simp only [List.range', List.foldl, for_lines]
  rw [hrow 1 (by norm_num), hrow 2 (by norm_num), hrow 3 (by norm_num), hrow 4 (by norm_num),
    hrow 5 (by norm_num), hrow 6 (by norm_num), hrow 7 (by norm_num), hrow 8 (by norm_num),
    hrow 9 (by norm_num), hrow 10 (by norm_num), hrow 11 (by norm_num), hrow 12 (by norm_num)]
  simp only [or_mod_65536, Nat.mod_mod, ht, Nat.zero_mod, Nat.zero_or, Nat.lor_assoc]

/-- Row 0 of the PB-1000 port table reads 0: `KO0` declares no bit. -/
theorem pb1000_ports_row0 (inp : input_state) (hports : pb1000_ports inp) :
    inp.m_io_keyboard 0 = 0 := by
  have h := hports 0 (by norm_num)
  rw [← h]
  exact Nat.and_zero _

/-- C6: for every input state of the PB-1000 (row ports reading the bits its port table
declares, any digitizer X, Y and contact), the 13-row read with the low 4 bits of
`m_kb_matrix` equal to the sentinel 13 returns the bitwise OR, over every row 0..12 of
the matrix, of what the read returns when that row is selected individually (the row's
bits with its digitizer contribution). The loop polls rows 1..12; row 0 adds nothing. -/
theorem pb1000_kb_r_all_rows (s : pb1000_state) (inp : input_state)
    (hports : pb1000_ports inp) (hkb : s.m_kb_matrix &&& 15 = 13) :
    pb1000_kb_r s inp = or_of_single_rows s inp (List.range 13) ∧
    pb1000_kb_r s inp = or_of_single_rows s inp (List.range' 1 12) := by
  refine ⟨?_, pb1000_kb_r_sentinel s inp hkb⟩
  have hr : List.range 13 = 0 :: List.range' 1 12 := by decide
  have hrow0 : pb1000_kb_r { s with m_kb_matrix := 0 } inp = 0 := by
    rw [pb1000_kb_r_select_row s inp 0 (by norm_num), pb1000_ports_row0 inp hports,
      read_touchscreen_off_line inp 0 (by omega)]
    rfl
  rw [pb1000_kb_r_sentinel s inp hkb]
  unfold or_of_single_rows
  rw [hr, List.foldl_cons, hrow0]
  rfl

/-- C6 at a concrete read: rows 2, 9 and 12 hold declared bits and the digitizer makes
contact at X bucket 2, Y bucket 3; the sentinel read and the OR of the thirteen
single-row reads are both `0x8051`. -/
theorem pb1000_kb_r_all_rows_witness :
    pb1000_ports (example_input (fun r => if r = 2 then 1 else if r = 9 then 0x10 else
      if r = 12 then 0x40 else 0) 130 200 1) ∧
    pb1000_kb_r { example_state 0 0 none none with m_kb_matrix := 13 }
      (example_input (fun r => if r = 2 then 1 else if r = 9 then 0x10 else
        if r = 12 then 0x40 else 0) 130 200 1) = 0x8051 ∧
    or_of_single_rows { example_state 0 0 none none with m_kb_matrix := 13 }
      (example_input (fun r => if r = 2 then 1 else if r = 9 then 0x10 else
        if r = 12 then 0x40 else 0) 130 200 1) (List.range 13) = 0x8051 :=
  ⟨by unfold pb1000_ports; decide,
   (pb1000_kb_r_all_rows { example_state 0 0 none none with m_kb_matrix := 13 }
    (example_input (fun r => if r = 2 then 1 else if r = 9 then 0x10 else
      if r = 12 then 0x40 else 0) 130 200 1) (by unfold pb1000_ports; decide)
    (by decide)).1.trans (by decide),
   by decide⟩

/-- The 12-row read with a single-row selector, as a formula. -/
theorem pb2000c_kb_r_row (s : pb1000_state) (inp : input_state)
    (hkb : s.m_kb_matrix &&& 15 < 12) :
    pb2000c_kb_r s inp = inp.m_io_keyboard (s.m_kb_matrix &&& 15) % 65536 := by
  unfold pb2000c_kb_r
  simp only [(kb_selector s.m_kb_matrix).1]
  rw [if_neg (by omega), if_pos hkb]

/-- The 12-row read with row `row` selected individually. -/
theorem pb2000c_kb_r_select_row (s : pb1000_state) (inp : input_state) (row : Nat)
    (hr : row < 12) :
    pb2000c_kb_r { s with m_kb_matrix := row } inp = inp.m_io_keyboard row % 65536 := by
  have h15 : row &&& 15 = row := by interval_cases row <;> rfl
  have := pb2000c_kb_r_row { s with m_kb_matrix := row } inp (by
    show row &&& 15 < 12
    rw [h15]; exact hr)
  simpa [h15] using this

/-- The 12-row read with a selector that is neither a row nor 13 returns 0. -/
theorem pb2000c_kb_r_other (s : pb1000_state) (inp : input_state)
    (h13 : s.m_kb_matrix &&& 15 ≠ 13) (h12 : ¬ s.m_kb_matrix &&& 15 < 12) :
    pb2000c_kb_r s inp = 0 := by
  unfold pb2000c_kb_r
  simp only [(kb_selector s.m_kb_matrix).1]
  rw [if_neg h13, if_neg h12]

/-- The 12-row read with selector 13, as the OR of rows 1..11. -/
theorem pb2000c_kb_r_sentinel (s : pb1000_state) (inp : input_state)
    (hkb : s.m_kb_matrix &&& 15 = 13) :
    pb2000c_kb_r s inp = or_of_single_rows_pb2000c s inp (List.range' 1 11) := by
  have hrow := pb2000c_kb_r_select_row s inp
  unfold pb2000c_kb_r or_of_single_rows_pb2000c
  simp only [(kb_selector s.m_kb_matrix).1, hkb, if_true]
  simp only [List.range', List.foldl, for_lines]
  rw [hrow 1 (by norm_num), hrow 2 (by norm_num), hrow 3 (by norm_num), hrow 4 (by norm_num),
    hrow 5 (by norm_num), hrow 6 (by norm_num), hrow 7 (by norm_num), hrow 8 (by norm_num),
    hrow 9 (by norm_num), hrow 10 (by norm_num), hrow 11 (by norm_num)]
  simp only [or_mod_65536, Nat.mod_mod, Nat.zero_mod, Nat.zero_or, Nat.lor_assoc]

/-- Only selector 13 triggers the all-rows OR of the 13-row read. -/
theorem all_rows_selector_pb1000_iff (k : Nat) : all_rows_selector_pb1000 k ↔ k = 13 := by
  constructor
  · rintro ⟨hk, h⟩
    by_contra hne
    have h0 := h { example_state 0 0 none none with m_kb_matrix := k }
      (example_input (fun r => if r = 1 then 1 else if r = 2 then 2 else 0) 0 0 0)
    interval_cases k <;> first
      | exact absurd rfl hne
      | exact absurd (h0 (by decide)) (by decide)
  · rintro rfl
    exact ⟨by norm_num, fun s inp hkb => pb1000_kb_r_sentinel s inp hkb⟩

/-- Only selector 13 triggers the all-rows OR of the 12-row read. -/
theorem all_rows_selector_pb2000c_iff (k : Nat) : all_rows_selector_pb2000c k ↔ k = 13 := by
  constructor
  · rintro ⟨hk, h⟩
    by_contra hne
    have h0 := h { example_state 0 0 none none with m_kb_matrix := k }
      (example_input (fun r => if r = 1 then 1 else if r = 2 then 2 else 0) 0 0 0)
    interval_cases k <;> first
      | exact absurd rfl hne
      | exact absurd (h0 (by decide)) (by decide)
  · rintro rfl
    exact ⟨by norm_num, fun s inp hkb => pb2000c_kb_r_sentinel s inp hkb⟩

/-- C8 (as stated, refuted): there is no pair of distinct selector values of which one
triggers the all-rows OR in the 13-row read and the other in the 12-row read. With
row 1 at 1 and row 2 at 2, both reads return the OR 3 at selector 13, and the 12-row
read returns 0 at selector 12. -/
theorem kb_r_sentinels_coincide :
    ¬ (∃ k13 k12 : Nat, all_rows_selector_pb1000 k13 ∧ all_rows_selector_pb2000c k12 ∧
        k12 ≠ k13) ∧
    pb1000_kb_r { example_state 0 0 none none with m_kb_matrix := 13 }
      (example_input (fun r => if r = 1 then 1 else if r = 2 then 2 else 0) 0 0 0) = 3 ∧
    pb2000c_kb_r { example_state 0 0 none none with m_kb_matrix := 13 }
      (example_input (fun r => if r = 1 then 1 else if r = 2 then 2 else 0) 0 0 0) = 3 ∧
    pb2000c_kb_r { example_state 0 0 none none with m_kb_matrix := 12 }
      (example_input (fun r => if r = 1 then 1 else if r = 2 then 2 else 0) 0 0 0) = 0 := by
  refine ⟨?_, by decide, by decide, by decide⟩
  rintro ⟨k13, k12, h13, h12, hne⟩
  rw [all_rows_selector_pb1000_iff] at h13
  rw [all_rows_selector_pb2000c_iff] at h12
  exact hne (h12.trans h13.symm)

/-- C8 (amended): the two keyboard variants differ in the row-count bound and share the
sentinel. `pb1000_kb_r` returns the selected row for selectors below 13 and
`pb2000c_kb_r` for selectors below 12 (selector 12 reads row 12 in the first and 0 in
the second); the all-rows OR is triggered by selector 13, and by no other selector, in
both variants. -/
theorem kb_r_variants :
    (∀ (s : pb1000_state) (inp : input_state), s.m_kb_matrix &&& 15 < 13 →
      pb1000_kb_r s inp = (inp.m_io_keyboard (s.m_kb_matrix &&& 15) % 65536) |||
        read_touchscreen inp (s.m_kb_matrix &&& 15)) ∧
    (∀ (s : pb1000_state) (inp : input_state), s.m_kb_matrix &&& 15 < 12 →
      pb2000c_kb_r s inp = inp.m_io_keyboard (s.m_kb_matrix &&& 15) % 65536) ∧
    (∀ (s : pb1000_state) (inp : input_state), s.m_kb_matrix &&& 15 = 12 →
      pb2000c_kb_r s inp = 0) ∧
    (∀ k : Nat, all_rows_selector_pb1000 k ↔ k = 13) ∧
    (∀ k : Nat, all_rows_selector_pb2000c k ↔ k = 13) := by
  refine ⟨pb1000_kb_r_row, pb2000c_kb_r_row, ?_, all_rows_selector_pb1000_iff,
    all_rows_selector_pb2000c_iff⟩
  intro s inp h
  exact pb2000c_kb_r_other s inp (by omega) (by omega)

/-- C8 (amended) at concrete reads: with row 12's port at `0x40`, selector 12 reads
`0x40` in the 13-row variant and 0 in the 12-row variant; selector 11 reads row 11 in
the 12-row variant. -/
theorem kb_r_variants_witness :
    pb1000_kb_r { example_state 0 0 none none with m_kb_matrix := 12 }
      (example_input (fun r => if r = 12 then 0x40 else if r = 11 then 0x80 else 0) 0 0 0)
      = 0x40 ∧
    pb2000c_kb_r { example_state 0 0 none none with m_kb_matrix := 12 }
      (example_input (fun r => if r = 12 then 0x40 else if r = 11 then 0x80 else 0) 0 0 0)
      = 0 ∧
    pb2000c_kb_r { example_state 0 0 none none with m_kb_matrix := 11 }
      (example_input (fun r => if r = 12 then 0x40 else if r = 11 then 0x80 else 0) 0 0 0)
      = 0x80 :=
  ⟨(kb_r_variants.1 { example_state 0 0 none none with m_kb_matrix := 12 }
      (example_input (fun r => if r = 12 then 0x40 else if r = 11 then 0x80 else 0) 0 0 0)
      (by decide)).trans (by decide),
   kb_r_variants.2.2.1 { example_state 0 0 none none with m_kb_matrix := 12 }
      (example_input (fun r => if r = 12 then 0x40 else if r = 11 then 0x80 else 0) 0 0 0)
      (by decide),
   (kb_r_variants.2.1 { example_state 0 0 none none with m_kb_matrix := 11 }
      (example_input (fun r => if r = 12 then 0x40 else if r = 11 then 0x80 else 0) 0 0 0)
      (by decide)).trans (by decide)⟩

/-! ## Keyboard matrix control writes -/

/-- Bit 7 of the latched control value keeps the timer disabled across one event. -/
theorem handle_bit7_never (s : pb1000_state) (e : event)
    (h : BIT s.m_kb_matrix 7 ≠ 0 → s.m_kb_timer = timer_never) :
    BIT (handle s e).m_kb_matrix 7 ≠ 0 → (handle s e).m_kb_timer = timer_never := by
  cases e with
  | gatearray_w offset data =>
    obtain ⟨-, -, -, -, -, f6, f7, -, -⟩ := gatearray_w_frame s offset data
    show BIT (gatearray_w s offset data).m_kb_matrix 7 ≠ 0 →
      (gatearray_w s offset data).m_kb_timer = timer_never
    rw [f6, f7]
    exact h
  | kb_matrix_w data =>
    intro h7
    have h7d : BIT (data % 256) 7 ≠ 0 := h7
    show (kb_matrix_w s data).m_kb_timer = timer_never
    unfold kb_matrix_w
    simp only
    rw [if_pos h7d]
    by_cases hprev : BIT s.m_kb_matrix 7 ≠ 0
    · rw [if_neg (not_not_intro hprev)]
      exact h hprev
    · rw [if_pos hprev]
      rfl
  | pb1000_kb_r inp => exact h
  | pb2000c_kb_r inp => exact h
  | keyboard_timer => exact h

/-- C9: in every state reached from `machine_start` (control latch 0, timer armed) by
any sequence of events, in particular by any sequence of `kb_matrix_w` writes, whenever
bit 7 of the latched `m_kb_matrix` is set the scan timer is disarmed: its start delay
and period are both `never`. -/
theorem run_bit7_timer_disabled (cfg : machine_config) (evs : List event)
    (h7 : BIT (run cfg evs).m_kb_matrix 7 ≠ 0) :
    (run cfg evs).m_kb_timer = timer_never := by
  refine foldl_handle_invariant
    (fun s => BIT s.m_kb_matrix 7 ≠ 0 → s.m_kb_timer = timer_never)
    handle_bit7_never evs (machine_start cfg) ?_ h7
  intro h
  exact absurd (by decide : BIT 0 7 = 0) h

/-- C9 on a concrete run: three consecutive writes with bit 7 set, after an initial
write that re-armed the timer at 32 Hz, leave the timer disarmed. -/
theorem run_bit7_timer_disabled_witness :
    BIT (run { card1 := false, card2 := false, rom := 1000, card1_region := none,
               card2_region := none }
      [event.kb_matrix_w 0x40, event.kb_matrix_w 0x80, event.kb_matrix_w 0xc0,
       event.kb_matrix_w 0x8d]).m_kb_matrix 7 ≠ 0 ∧
    (run { card1 := false, card2 := false, rom := 1000, card1_region := none,
           card2_region := none }
      [event.kb_matrix_w 0x40, event.kb_matrix_w 0x80, event.kb_matrix_w 0xc0,
       event.kb_matrix_w 0x8d]).m_kb_timer = timer_never :=
  ⟨by decide, run_bit7_timer_disabled _ _ (by decide)⟩

/-- The control value latched by `kb_matrix_w` is the written 8-bit value. -/
theorem kb_matrix_w_latch (s : pb1000_state) (data : Nat) :
    (kb_matrix_w s data).m_kb_matrix = data % 256 := rfl

/-- C10: for every prior state and every written 8-bit value with bit 7 clear whose
bit 6 differs from bit 6 of the previously latched `m_kb_matrix`, `kb_matrix_w` programs
the scan timer as a periodic timer at 32 Hz when the written bit 6 is set and at 256 Hz
when it is clear, whatever the timer held before. -/
theorem kb_matrix_w_bit6_edge (s : pb1000_state) (data : Nat) (hd : data < 256)
    (h7 : BIT data 7 = 0) (h6 : BIT data 6 ≠ BIT s.m_kb_matrix 6) :
    (BIT data 6 ≠ 0 → (kb_matrix_w s data).m_kb_timer = timer_hz 32) ∧
    (BIT data 6 = 0 → (kb_matrix_w s data).m_kb_timer = timer_hz 256) := by
  have hm : data % 256 = data := Nat.mod_eq_of_lt hd
  unfold kb_matrix_w
  simp only [hm]
  rw [if_neg (not_not_intro h7), if_pos (Ne.symm h6)]
  constructor
  · intro hb
    rw [if_pos hb]
    rfl
  · intro hb
    rw [if_neg (not_not_intro hb)]
    rfl

/-- C10 at concrete writes: `0x40` written over a latched 0 with the timer at 192 Hz
arms 32 Hz; `0x0d` written over a latched `0xc0` with the timer disabled arms 256 Hz. -/
theorem kb_matrix_w_bit6_edge_witness :
    (kb_matrix_w (example_state 0 0 none none) 0x40).m_kb_timer = timer_hz 32 ∧
    (kb_matrix_w { example_state 0 0 none none with
        m_kb_matrix := 0xc0, m_kb_timer := timer_never } 0x0d).m_kb_timer = timer_hz 256 :=
  ⟨(kb_matrix_w_bit6_edge (example_state 0 0 none none) 0x40 (by decide) (by decide)
      (by decide)).1 (by decide),
   (kb_matrix_w_bit6_edge { example_state 0 0 none none with
      m_kb_matrix := 0xc0, m_kb_timer := timer_never } 0x0d (by decide) (by decide)
      (by decide)).2 (by decide)⟩

/-- The timer after a control write of an 8-bit value, by cases on bits 7 and 6. -/
theorem kb_matrix_w_timer (s : pb1000_state) (data : Nat) (hd : data < 256) :
    (kb_matrix_w s data).m_kb_timer =
      if BIT data 7 ≠ 0 then
        (if BIT s.m_kb_matrix 7 ≠ 0 then s.m_kb_timer else timer_never)
      else if BIT s.m_kb_matrix 6 ≠ BIT data 6 then
        (if BIT data 6 ≠ 0 then timer_hz 32 else timer_hz 256)
      else s.m_kb_timer := by
  have hm : data % 256 = data := Nat.mod_eq_of_lt hd
  unfold kb_matrix_w
  simp only [hm]
  by_cases h7 : BIT data 7 ≠ 0
  · rw [if_pos h7, if_pos h7]
    by_cases hp : BIT s.m_kb_matrix 7 ≠ 0
    · rw [if_neg (not_not_intro hp), if_pos hp]
    · rw [if_pos hp, if_neg hp]
      rfl
  · rw [if_neg h7, if_neg h7]
    by_cases h6 : BIT s.m_kb_matrix 6 ≠ BIT data 6
    · rw [if_pos h6, if_pos h6]
      by_cases hb : BIT data 6 ≠ 0
      · rw [if_pos hb, if_pos hb]
        rfl
      · rw [if_neg hb, if_neg hb]
        rfl
    · rw [if_neg h6, if_neg h6]

/-- C11 (as stated, refuted): from `machine_start`, writing `0x80` and then `0x00` is a
falling edge of bit 7 that leaves the timer disarmed, and writing `0x80` and then `0x40`
is one that arms 32 Hz; so a falling edge of bit 7 does not arm the 192 Hz rate. -/
theorem kb_matrix_w_falling_edge_not_192 :
    (run example_config [event.kb_matrix_w 0x80, event.kb_matrix_w 0x00]).m_kb_timer =
      timer_never ∧
    (run example_config [event.kb_matrix_w 0x80, event.kb_matrix_w 0x40]).m_kb_timer =
      timer_hz 32 ∧
    ¬ (∀ (s : pb1000_state) (data : Nat), data < 256 → BIT s.m_kb_matrix 7 ≠ 0 →
        BIT data 7 = 0 → (kb_matrix_w s data).m_kb_timer = timer_hz 192) := by
  refine ⟨by decide, by decide, ?_⟩
  intro h
  have h0 := h (run example_config [event.kb_matrix_w 0x80]) 0x00 (by decide) (by decide)
    (by decide)
  revert h0
  decide

/-- C11 (amended): on the falling edge of bit 7 (latched value has bit 7 set, written
8-bit value has bit 7 clear) `kb_matrix_w` programs no 192 Hz rate: it re-arms the timer
at 32 Hz (written bit 6 set) or 256 Hz (written bit 6 clear) when bit 6 of the written
value differs from bit 6 of the latched value, and leaves the timer as it was otherwise.
The 192 Hz rate is what `machine_start` programs. -/
theorem kb_matrix_w_falling_edge (s : pb1000_state) (data : Nat) (hd : data < 256)
    (_hprev : BIT s.m_kb_matrix 7 ≠ 0) (h7 : BIT data 7 = 0) :
    (BIT data 6 ≠ BIT s.m_kb_matrix 6 → BIT data 6 ≠ 0 →
      (kb_matrix_w s data).m_kb_timer = timer_hz 32) ∧
    (BIT data 6 ≠ BIT s.m_kb_matrix 6 → BIT data 6 = 0 →
      (kb_matrix_w s data).m_kb_timer = timer_hz 256) ∧
    (BIT data 6 = BIT s.m_kb_matrix 6 → (kb_matrix_w s data).m_kb_timer = s.m_kb_timer) ∧
    (∀ cfg : machine_config, (machine_start cfg).m_kb_timer = timer_hz 192) := by
  rw [kb_matrix_w_timer s data hd, if_neg (not_not_intro h7)]
  refine ⟨?_, ?_, ?_, fun _ => rfl⟩
  · intro h6 hb
    rw [if_pos (Ne.symm h6), if_pos hb]
  · intro h6 hb
    rw [if_pos (Ne.symm h6), if_neg (not_not_intro hb)]
  · intro h6
    rw [if_neg (not_not_intro h6.symm)]

/-- C11 (amended) at concrete writes after `0x80` from `machine_start`: `0x00` leaves
the timer disarmed, `0x40` arms 32 Hz. -/
theorem kb_matrix_w_falling_edge_witness :
    (kb_matrix_w (run example_config [event.kb_matrix_w 0x80]) 0x00).m_kb_timer =
      (run example_config [event.kb_matrix_w 0x80]).m_kb_timer ∧
    (kb_matrix_w (run example_config [event.kb_matrix_w 0x80]) 0x40).m_kb_timer =
      timer_hz 32 :=
  ⟨(kb_matrix_w_falling_edge (run example_config [event.kb_matrix_w 0x80]) 0x00
      (by decide) (by decide) (by decide)).2.2.1 (by decide),
   (kb_matrix_w_falling_edge (run example_config [event.kb_matrix_w 0x80]) 0x40
      (by decide) (by decide) (by decide)).1 (by decide) (by decide)⟩

/-- C12 (as stated, refuted): from `machine_start`, writing `0xc0` (bit 7 set) and
then `0x40` (bit 7 clear, bit 6 set) leaves the timer disarmed, not armed at 32 Hz. -/
theorem kb_matrix_w_bit7_then_bit6_not_32 :
    (run example_config [event.kb_matrix_w 0xc0, event.kb_matrix_w 0x40]).m_kb_timer =
      timer_never ∧
    ¬ (∀ (s : pb1000_state) (d1 d2 : Nat), d1 < 256 → d2 < 256 → BIT d1 7 ≠ 0 →
        BIT d2 7 = 0 → BIT d2 6 ≠ 0 →
        (kb_matrix_w (kb_matrix_w s d1) d2).m_kb_timer = timer_hz 32) := by
  refine ⟨by decide, ?_⟩
  intro h
  have h0 := h (machine_start example_config) 0xc0 0x40 (by decide) (by decide) (by decide)
    (by decide) (by decide)
  revert h0
  decide

/-- C12 (amended): for every prior state and every pair of 8-bit values `d1` with bit 7
set and bit 6 clear and `d2` with bit 7 clear and bit 6 set (all other bits arbitrary),
`kb_matrix_w(d1)` followed by `kb_matrix_w(d2)` leaves the scan timer armed with a 32 Hz
period. -/
theorem kb_matrix_w_bit7_then_bit6 (s : pb1000_state) (d1 d2 : Nat)
    (h1 : d1 < 256) (h2 : d2 < 256) (_h17 : BIT d1 7 ≠ 0) (h16 : BIT d1 6 = 0)
    (h27 : BIT d2 7 = 0) (h26 : BIT d2 6 ≠ 0) :
    (kb_matrix_w (kb_matrix_w s d1) d2).m_kb_timer = timer_hz 32 := by
  have hl : (kb_matrix_w s d1).m_kb_matrix = d1 := by
    rw [kb_matrix_w_latch, Nat.mod_eq_of_lt h1]
  rw [kb_matrix_w_timer _ d2 h2, if_neg (not_not_intro h27), hl,
    if_pos (by rw [h16]; exact Ne.symm h26), if_pos h26]

/-- C12 (amended) at the documented writes: from `machine_start`, `0x80` then `0x40`
ends at 32 Hz. -/
theorem kb_matrix_w_bit7_then_bit6_witness :
    (kb_matrix_w (kb_matrix_w (machine_start example_config) 0x80) 0x40).m_kb_timer =
      timer_hz 32 :=
  kb_matrix_w_bit7_then_bit6 (machine_start example_config) 0x80 0x40 (by decide)
    (by decide) (by decide) (by decide) (by decide) (by decide)

/-- C17: for every prior state and every written 8-bit value with bit 7 clear whose
bit 6 equals bit 6 of the latched `m_kb_matrix`, `kb_matrix_w` changes nothing but the
latch, which becomes the written value; the timer is exactly as it was, so a timer that
was disarmed stays disarmed although bit 7 of the latch is now clear. -/
theorem kb_matrix_w_no_edge (s : pb1000_state) (data : Nat) (hd : data < 256)
    (h7 : BIT data 7 = 0) (h6 : BIT data 6 = BIT s.m_kb_matrix 6) :
    kb_matrix_w s data = { s with m_kb_matrix := data } ∧
    (kb_matrix_w s data).m_kb_timer = s.m_kb_timer ∧
    (s.m_kb_timer = timer_never →
      (kb_matrix_w s data).m_kb_timer = timer_never ∧
      BIT (kb_matrix_w s data).m_kb_matrix 7 = 0) := by
  have ht : (kb_matrix_w s data).m_kb_timer = s.m_kb_timer := by
    rw [kb_matrix_w_timer s data hd, if_neg (not_not_intro h7),
      if_neg (not_not_intro h6.symm)]
  have hl : (kb_matrix_w s data).m_kb_matrix = data := by
    rw [kb_matrix_w_latch, Nat.mod_eq_of_lt hd]
  refine ⟨?_, ht, ?_⟩
  · have hm : data % 256 = data := Nat.mod_eq_of_lt hd
    unfold kb_matrix_w
    simp only [hm]
    rw [if_neg (not_not_intro h7), if_neg (not_not_intro h6.symm)]
  · intro hn
    rw [ht, hl]
    exact ⟨hn, h7⟩

/-- C17 on a concrete run: after `0x80` from `machine_start` disarmed the timer, writing
`0x0d` (bit 7 clear, bit 6 unchanged) leaves it disarmed with bit 7 of the latch clear. -/
theorem kb_matrix_w_no_edge_witness :
    (kb_matrix_w (run example_config [event.kb_matrix_w 0x80]) 0x0d).m_kb_timer =
      timer_never ∧
    BIT (kb_matrix_w (run example_config [event.kb_matrix_w 0x80]) 0x0d).m_kb_matrix 7 = 0 :=
  (kb_matrix_w_no_edge (run example_config [event.kb_matrix_w 0x80]) 0x0d (by decide)
    (by decide) (by decide)).2.2 (by decide)

/-- The levels driven on the key interrupt line after a tick. -/
theorem keyboard_timer_key_int (s : pb1000_state) :
    (keyboard_timer s).key_int =
      s.key_int ++ [line_state.ASSERT_LINE, line_state.CLEAR_LINE] := by
  unfold keyboard_timer
  simp

/-- One event never leaves the key interrupt line asserted. -/
theorem handle_key_int_not_asserted (s : pb1000_state) (e : event)
    (h : s.key_int.getLast? ≠ some line_state.ASSERT_LINE) :
    (handle s e).key_int.getLast? ≠ some line_state.ASSERT_LINE := by
  cases e with
  | gatearray_w offset data =>
    obtain ⟨-, -, -, -, -, -, -, f8, -⟩ := gatearray_w_frame s offset data
    show (gatearray_w s offset data).key_int.getLast? ≠ some line_state.ASSERT_LINE
    rw [f8]
    exact h
  | kb_matrix_w data => exact h
  | pb1000_kb_r inp => exact h
  | pb2000c_kb_r inp => exact h
  | keyboard_timer =>
    show (keyboard_timer s).key_int.getLast? ≠ some line_state.ASSERT_LINE
    rw [keyboard_timer_key_int]
    simp

/-- C14: every scan timer tick drives the key interrupt line with exactly the sequence
assert, clear after whatever was driven before, so the last level driven after a tick is
the cleared one, and in no state reached from `machine_start` is the line left asserted;
the tick changes neither `m_kb_matrix`, the gate array latches, the timer, the bank base
nor the card regions. -/
theorem keyboard_timer_pulse (s : pb1000_state) :
    (keyboard_timer s).key_int =
      s.key_int ++ [line_state.ASSERT_LINE, line_state.CLEAR_LINE] ∧
    (keyboard_timer s).key_int.getLast? = some line_state.CLEAR_LINE ∧
    (keyboard_timer s).m_kb_matrix = s.m_kb_matrix ∧
    (keyboard_timer s).m_gatearray = s.m_gatearray ∧
    (keyboard_timer s).m_kb_timer = s.m_kb_timer ∧
    bank_view (keyboard_timer s) = bank_view s ∧
    (∀ (cfg : machine_config) (evs : List event),
      (run cfg evs).key_int.getLast? ≠ some line_state.ASSERT_LINE) := by
  refine ⟨keyboard_timer_key_int s, ?_, rfl, rfl, rfl, rfl, ?_⟩
  · rw [keyboard_timer_key_int]
    simp
  · intro cfg evs
    exact foldl_handle_invariant
      (fun s => s.key_int.getLast? ≠ some line_state.ASSERT_LINE)
      handle_key_int_not_asserted evs (machine_start cfg) (by simp [machine_start])

/-- The digitizer contribution for an 8-bit line and 8-bit coordinates is 0 or one of
the four bits 12..15, and 0 for a line outside 7..10. -/
theorem read_touchscreen_bits (inp : input_state) (line : Nat)
    (hline : line < 256) (hx : inp.POSX < 256) (hy : inp.POSY < 256) :
    (read_touchscreen inp line = 0 ∨ read_touchscreen inp line = 0x1000 ∨
      read_touchscreen inp line = 0x2000 ∨ read_touchscreen inp line = 0x4000 ∨
      read_touchscreen inp line = 0x8000) ∧
    (¬ (7 ≤ line ∧ line ≤ 10) → read_touchscreen inp line = 0) := by
  have hl : line % 256 = line := Nat.mod_eq_of_lt hline
  have hxb : inp.POSX / 64 < 4 := by omega
  constructor
  · unfold read_touchscreen
    simp only
    split
    · split
      · have hyb : inp.POSY / 64 % 256 < 4 := by omega
        generalize inp.POSY / 64 % 256 = y at hyb
        interval_cases y <;> simp
      · left; rfl
    · left; rfl
  · intro hout
    apply read_touchscreen_off_line
    intro h
    omega

/-- C18: for every line in 0..255, every X and Y in 0..255 and every contact flag,
`read_touchscreen` returns 0 or exactly one of `0x1000`, `0x2000`, `0x4000`, `0x8000`
(the shift stays inside 16 bits and off bits 0..11), and 0 whenever the line is outside
7..10; so in `pb1000_kb_r` the low 12 bits of a single-row read are the row port's low
12 bits, and a row outside 7..10 is returned as the port reads (in 16 bits). -/
theorem read_touchscreen_range (s : pb1000_state) (inp : input_state) (line : Nat)
    (hline : line < 256) (hx : inp.POSX < 256) (hy : inp.POSY < 256) :
    (read_touchscreen inp line = 0 ∨ read_touchscreen inp line = 0x1000 ∨
      read_touchscreen inp line = 0x2000 ∨ read_touchscreen inp line = 0x4000 ∨
      read_touchscreen inp line = 0x8000) ∧
    (¬ (7 ≤ line ∧ line ≤ 10) → read_touchscreen inp line = 0) ∧
    (s.m_kb_matrix &&& 15 < 13 →
      pb1000_kb_r s inp % 0x1000 = inp.m_io_keyboard (s.m_kb_matrix &&& 15) % 0x1000) ∧
    (s.m_kb_matrix &&& 15 < 13 → ¬ (7 ≤ s.m_kb_matrix &&& 15 ∧ s.m_kb_matrix &&& 15 ≤ 10) →
      pb1000_kb_r s inp = inp.m_io_keyboard (s.m_kb_matrix &&& 15) % 65536) := by
  obtain ⟨hb, hz⟩ := read_touchscreen_bits inp line hline hx hy
  refine ⟨hb, hz, ?_, ?_⟩
  · intro hkb
    obtain ⟨hb2, -⟩ := read_touchscreen_bits inp (s.m_kb_matrix &&& 15) (by omega) hx hy
    rw [pb1000_kb_r_row s inp hkb]
    have hmod : ∀ a t : Nat, t % 4096 = 0 → (a ||| t) % 4096 = a % 4096 := by
      intro a t ht
      apply Nat.eq_of_testBit_eq
      intro i
      have h : (4096 : Nat) = 2 ^ 12 := by norm_num
      have ht2 : ∀ j, j < 12 → t.testBit j = false := by
        intro j hj
        have := Nat.testBit_mod_two_pow t 12 j
        rw [← h, ht] at this
        simpa [hj] using this.symm
      rw [h]
      simp only [Nat.testBit_mod_two_pow, Nat.testBit_or]
      by_cases hi : i < 12
      · simp [hi, ht2 i hi]
      · simp [hi]
    rw [hmod _ _ (by rcases hb2 with h | h | h | h | h <;> rw [h])]
    omega
  · intro hkb hout
    obtain ⟨-, hz2⟩ := read_touchscreen_bits inp (s.m_kb_matrix &&& 15) (by omega) hx hy
    rw [pb1000_kb_r_row s inp hkb, hz2 hout]
    simp

/-- C18 at concrete reads: contact at X bucket 2, Y bucket 3; row 9 with port `0x0abc`
reads `0x8abc` (low 12 bits kept), row 3 with port `0x0abc` reads `0x0abc`. -/
theorem read_touchscreen_range_witness :
    pb1000_kb_r { example_state 0 0 none none with m_kb_matrix := 9 }
      (example_input (fun _ => 0x0abc) 130 200 1) % 0x1000 = 0x0abc ∧
    pb1000_kb_r { example_state 0 0 none none with m_kb_matrix := 3 }
      (example_input (fun _ => 0x0abc) 130 200 1) = 0x0abc :=
  ⟨((read_touchscreen_range { example_state 0 0 none none with m_kb_matrix := 9 }
      (example_input (fun _ => 0x0abc) 130 200 1) 9 (by decide) (by decide)
      (by decide)).2.2.1 (by decide)).trans (by decide),
   ((read_touchscreen_range { example_state 0 0 none none with m_kb_matrix := 3 }
      (example_input (fun _ => 0x0abc) 130 200 1) 3 (by decide) (by decide)
      (by decide)).2.2.2 (by decide) (by decide)).trans (by decide)⟩

/-- The 13-row read with a selector that is neither a row nor 13 returns 0. -/
theorem pb1000_kb_r_other (s : pb1000_state) (inp : input_state)
    (h13 : s.m_kb_matrix &&& 15 ≠ 13) (hrow : ¬ s.m_kb_matrix &&& 15 < 13) :
    pb1000_kb_r s inp = 0 := by
  unfold pb1000_kb_r
  simp only [(kb_selector s.m_kb_matrix).1]
  rw [if_neg h13, if_neg hrow]

/-- The bounds-checked 13-row read never fails and returns what the read returns. -/
theorem pb1000_kb_r_checked_eq (s : pb1000_state) (inp : input_state) :
    pb1000_kb_r_checked s inp = some (pb1000_kb_r s inp) := by
  unfold pb1000_kb_r_checked pb1000_kb_r
  simp only [(kb_selector s.m_kb_matrix).1]
  by_cases h13 : s.m_kb_matrix &&& 15 = 13
  · rw [if_pos h13, if_pos h13]
    simp [for_lines_checked, for_lines, io_keyboard_at]
  · rw [if_neg h13, if_neg h13]
    by_cases hrow : s.m_kb_matrix &&& 15 < 13
    · rw [if_pos hrow, if_pos hrow]
      simp [io_keyboard_at, hrow]
    · rw [if_neg hrow, if_neg hrow]

/-- The bounds-checked 12-row read never fails and returns what the read returns. -/
theorem pb2000c_kb_r_checked_eq (s : pb1000_state) (inp : input_state) :
    pb2000c_kb_r_checked s inp = some (pb2000c_kb_r s inp) := by
  unfold pb2000c_kb_r_checked pb2000c_kb_r
  simp only [(kb_selector s.m_kb_matrix).1]
  by_cases h13 : s.m_kb_matrix &&& 15 = 13
  · rw [if_pos h13, if_pos h13]
    simp [for_lines_checked, for_lines, io_keyboard_at]
  · rw [if_neg h13, if_neg h13]
    by_cases hrow : s.m_kb_matrix &&& 15 < 12
    · rw [if_pos hrow, if_pos hrow]
      have h13b : s.m_kb_matrix &&& 15 < 13 := by omega
      simp [io_keyboard_at, h13b]
    · rw [if_neg hrow, if_neg hrow]

/-- C13: for every selector that is neither a row index nor the sentinel (low 4 bits of
`m_kb_matrix` equal to 14 or 15 for `pb1000_kb_r`; 12, 14 or 15 for `pb2000c_kb_r`) the
read returns 0 for every input state; and for every `m_kb_matrix` both reads only index
rows 0..12 of the 13-entry port array: the bounds-checked reads never fail and return
the same value. -/
theorem kb_r_default_and_bounds (s : pb1000_state) (inp : input_state) :
    (s.m_kb_matrix &&& 15 = 14 ∨ s.m_kb_matrix &&& 15 = 15 → pb1000_kb_r s inp = 0) ∧
    (s.m_kb_matrix &&& 15 = 12 ∨ s.m_kb_matrix &&& 15 = 14 ∨ s.m_kb_matrix &&& 15 = 15 →
      pb2000c_kb_r s inp = 0) ∧
    pb1000_kb_r_checked s inp = some (pb1000_kb_r s inp) ∧
    pb2000c_kb_r_checked s inp = some (pb2000c_kb_r s inp) := by
  refine ⟨?_, ?_, pb1000_kb_r_checked_eq s inp, pb2000c_kb_r_checked_eq s inp⟩
  · intro h
    exact pb1000_kb_r_other s inp (by omega) (by omega)
  · intro h
    exact pb2000c_kb_r_other s inp (by omega) (by omega)

/-- C13 at concrete reads with every port at `0xffff` and the digitizer in contact:
selectors 14 and 15 read 0 in the 13-row variant, 12, 14 and 15 read 0 in the 12-row
variant. -/
theorem kb_r_default_and_bounds_witness :
    pb1000_kb_r { example_state 0 0 none none with m_kb_matrix := 0x4e }
      (example_input (fun _ => 0xffff) 130 200 1) = 0 ∧
    pb1000_kb_r { example_state 0 0 none none with m_kb_matrix := 0x0f }
      (example_input (fun _ => 0xffff) 130 200 1) = 0 ∧
    pb2000c_kb_r { example_state 0 0 none none with m_kb_matrix := 0x0c }
      (example_input (fun _ => 0xffff) 130 200 1) = 0 ∧
    pb2000c_kb_r { example_state 0 0 none none with m_kb_matrix := 0x0e }
      (example_input (fun _ => 0xffff) 130 200 1) = 0 :=
  ⟨(kb_r_default_and_bounds { example_state 0 0 none none with m_kb_matrix := 0x4e }
      (example_input (fun _ => 0xffff) 130 200 1)).1 (by decide),
   (kb_r_default_and_bounds { example_state 0 0 none none with m_kb_matrix := 0x0f }
      (example_input (fun _ => 0xffff) 130 200 1)).1 (by decide),
   (kb_r_default_and_bounds { example_state 0 0 none none with m_kb_matrix := 0x0c }
      (example_input (fun _ => 0xffff) 130 200 1)).2.1 (by decide),
   (kb_r_default_and_bounds { example_state 0 0 none none with m_kb_matrix := 0x0e }
      (example_input (fun _ => 0xffff) 130 200 1)).2.1 (by decide)⟩

end PB1000

namespace BSMT2000

/-! ## Pending-flag protocol -/

/-- A step that is not a host data write (call or delivery) keeps a clear pending flag
clear. -/
theorem bridge_step_pending (s : bsmt2000_device) (e : bridge_event)
    (he : is_data_write e = false) (h : s.m_write_pending = false) :
    (bridge_step s e).m_write_pending = false := by
  cases e with
  | write_data data => simp [is_data_write] at he
  | timer_data_write => simp [is_data_write] at he
  | timer_reg_write =>
    show (timer_reg_write s).m_write_pending = false
    unfold timer_reg_write
    split <;> exact h
  | read_status => exact h
  | write_reg data => exact h
  | tms_register_r => exact h
  | tms_data_r => rfl
  | tms_write_pending_r => exact h
  | tms_rom_r => exact h
  | tms_rom_addr_w data => exact h
  | tms_rom_bank_w data => exact h
  | tms_left_w data => exact h
  | tms_right_w data => exact h

/-- With no deferred data write waiting, a step that is not the host call `write_data`
keeps the pending flag clear and the data-write cell empty. -/
theorem bridge_step_idle (s : bsmt2000_device) (e : bridge_event)
    (he : is_write_data_call e = false)
    (h : s.m_write_pending = false ∧ s.data_write_timer = none) :
    (bridge_step s e).m_write_pending = false ∧ (bridge_step s e).data_write_timer = none := by
  obtain ⟨hp, ht⟩ := h
  cases e with
  | write_data data => simp [is_write_data_call] at he
  | timer_data_write =>
    show (timer_data_write s).m_write_pending = false ∧ (timer_data_write s).data_write_timer = none
    unfold timer_data_write
    rw [ht]
    exact ⟨hp, ht⟩
  | timer_reg_write =>
    show (timer_reg_write s).m_write_pending = false ∧ (timer_reg_write s).data_write_timer = none
    unfold timer_reg_write
    split <;> exact ⟨hp, ht⟩
  | read_status => exact ⟨hp, ht⟩
  | write_reg data => exact ⟨hp, ht⟩
  | tms_register_r => exact ⟨hp, ht⟩
  | tms_data_r => exact ⟨rfl, ht⟩
  | tms_write_pending_r => exact ⟨hp, ht⟩
  | tms_rom_r => exact ⟨hp, ht⟩
  | tms_rom_addr_w data => exact ⟨hp, ht⟩
  | tms_rom_bank_w data => exact ⟨hp, ht⟩
  | tms_left_w data => exact ⟨hp, ht⟩
  | tms_right_w data => exact ⟨hp, ht⟩

/-- A property kept by every step of a given kind holds after every sequence of steps
of that kind. -/
theorem foldl_bridge_step_invariant (P : bsmt2000_device → Prop) (allowed : bridge_event → Bool)
    (hstep : ∀ s e, allowed e = true → P s → P (bridge_step s e)) (evs : List bridge_event) :
    ∀ s, (∀ e ∈ evs, allowed e = true) → P s → P (evs.foldl bridge_step s) := by
  induction evs with
  | nil => intro s _ hs; exact hs
  | cons e rest ih =>
    intro s hall hs
    exact ih (bridge_step s e) (fun e' he' => hall e' (List.mem_cons_of_mem e he'))
      (hstep s e (hall e (List.mem_cons_self e rest)) hs)

/-- The status word is 1 exactly when no write is pending. -/
theorem read_status_of_not_pending (s : bsmt2000_device) (h : s.m_write_pending = false) :
    read_status s = 1 := by
  unfold read_status
  rw [h]
  rfl

/-- C15: pending-flag protocol of the bridge. For every state, one core data read
returns the latched `m_write_data` and clears `m_write_pending`; `read_status` right
after reports "no pending" (bit 0 set), and keeps reporting it across every sequence of
status reads, register writes (call and delivery), and core port accesses, as long as no
host data write intervenes; when no data write was already waiting this also holds
across expiries of the data-write timer; a host `write_data` followed by its delivery
sets `m_write_pending` again and latches the written value. -/
theorem tms_data_r_clears_pending (s : bsmt2000_device) :
    (tms_data_r s).1 = s.m_write_data ∧
    (tms_data_r s).2.m_write_pending = false ∧
    read_status (tms_data_r s).2 = 1 ∧
    (∀ evs : List bridge_event, (∀ e ∈ evs, (!is_data_write e) = true) →
      (evs.foldl bridge_step (tms_data_r s).2).m_write_pending = false ∧
      read_status (evs.foldl bridge_step (tms_data_r s).2) = 1) ∧
    (s.data_write_timer = none →
      ∀ evs : List bridge_event, (∀ e ∈ evs, (!is_write_data_call e) = true) →
        (evs.foldl bridge_step (tms_data_r s).2).m_write_pending = false ∧
        read_status (evs.foldl bridge_step (tms_data_r s).2) = 1) ∧
    (∀ (evs : List bridge_event) (data : Nat),
      (timer_data_write (write_data (evs.foldl bridge_step (tms_data_r s).2)
        data)).m_write_pending = true ∧
      read_status (timer_data_write (write_data (evs.foldl bridge_step (tms_data_r s).2)
        data)) = 0 ∧
      (timer_data_write (write_data (evs.foldl bridge_step (tms_data_r s).2)
        data)).m_write_data = data % 65536) := by
  refine ⟨rfl, rfl, rfl, ?_, ?_, ?_⟩
  · intro evs hall
    have hp := foldl_bridge_step_invariant (fun s => s.m_write_pending = false)
      (fun e => !is_data_write e)
      (fun s e he h => bridge_step_pending s e (by simpa using he) h) evs
      (tms_data_r s).2 hall rfl
    exact ⟨hp, read_status_of_not_pending _ hp⟩
  · intro hnone evs hall
    have hp := foldl_bridge_step_invariant
      (fun s => s.m_write_pending = false ∧ s.data_write_timer = none)
      (fun e => !is_write_data_call e)
      (fun s e he h => bridge_step_idle s e (by simpa using he) h) evs
      (tms_data_r s).2 hall ⟨rfl, hnone⟩
    exact ⟨hp.1, read_status_of_not_pending _ hp.1⟩
  · intro evs data
    refine ⟨rfl, rfl, rfl⟩

/-- C15 on a concrete run: a pending write of `0x1234` is consumed by the core; the
status then reads 1 across a status read, a register write with its delivery and core
accesses, and reads 0 after the host writes `0x5678`. -/
theorem tms_data_r_clears_pending_witness :
    (tms_data_r (example_device 0x1234 true)).1 = 0x1234 ∧
    read_status ([bridge_event.read_status, bridge_event.write_reg 7,
        bridge_event.timer_reg_write, bridge_event.tms_register_r,
        bridge_event.tms_data_r, bridge_event.timer_data_write].foldl bridge_step
      (tms_data_r (example_device 0x1234 true)).2) = 1 ∧
    read_status (timer_data_write (write_data
      ([bridge_event.read_status].foldl bridge_step
        (tms_data_r (example_device 0x1234 true)).2) 0x5678)) = 0 :=
  ⟨(tms_data_r_clears_pending (example_device 0x1234 true)).1,
   ((tms_data_r_clears_pending (example_device 0x1234 true)).2.2.2.2.1 rfl _
      (by decide)).2,
   ((tms_data_r_clears_pending (example_device 0x1234 true)).2.2.2.2.2
      [bridge_event.read_status] 0x5678).2.1⟩

/-! ## Zero-order hold -/

/-- A signed 16-bit sample survives the trip through the `uint16_t` port argument. -/
theorem to_int16_of_sample (l : Int) (hlo : -32768 ≤ l) (hhi : l < 32768) :
    to_int16 (l % 65536).toNat = l := by
  unfold to_int16
  have h0 : 0 ≤ l % 65536 := Int.emod_nonneg l (by norm_num)
  have h1 : l % 65536 < 65536 := Int.emod_lt_of_pos l (by norm_num)
  have hc : (((l % 65536).toNat : Nat) : Int) = l % 65536 := Int.toNat_of_nonneg h0
  have hm : (l % 65536).toNat % 65536 = (l % 65536).toNat := Nat.mod_eq_of_lt (by omega)
  rw [hm]
  split <;> omega

/-- C16: zero-order hold of the bridge. For every pair of signed 16-bit samples
(`l`, `r`) latched through `tms_left_w` / `tms_right_w` and every frame count `N`, a
stream update for `N` frames writes `l` into every left-channel frame slot and `r` into
every right-channel frame slot. -/
theorem sound_stream_update_hold (s : bsmt2000_device) (l r : Int) (N : Nat)
    (hl : -32768 ≤ l ∧ l < 32768) (hr : -32768 ≤ r ∧ r < 32768) :
    sound_stream_update (tms_right_w (tms_left_w s (l % 65536).toNat) (r % 65536).toNat) N =
      (List.replicate N l, List.replicate N r) ∧
    (∀ i, i < N →
      (sound_stream_update (tms_right_w (tms_left_w s (l % 65536).toNat)
        (r % 65536).toNat) N).1[i]? = some l ∧
      (sound_stream_update (tms_right_w (tms_left_w s (l % 65536).toNat)
        (r % 65536).toNat) N).2[i]? = some r) := by
  have h : sound_stream_update (tms_right_w (tms_left_w s (l % 65536).toNat)
      (r % 65536).toNat) N = (List.replicate N l, List.replicate N r) := by
    unfold sound_stream_update tms_right_w tms_left_w
    simp only [to_int16_of_sample l hl.1 hl.2, to_int16_of_sample r hr.1 hr.2]
  refine ⟨h, ?_⟩
  intro i hi
  rw [h]
  simp [hi]

/-- C16 at the documented samples: left 100, right -50 and four frames give four frames
all equal to (100, -50). -/
theorem sound_stream_update_hold_witness :
    List.zip
      (sound_stream_update (tms_right_w (tms_left_w (example_device 0 false)
        ((100 : Int) % 65536).toNat) ((-50 : Int) % 65536).toNat) 4).1
      (sound_stream_update (tms_right_w (tms_left_w (example_device 0 false)
        ((100 : Int) % 65536).toNat) ((-50 : Int) % 65536).toNat) 4).2 =
    [(100, -50), (100, -50), (100, -50), (100, -50)] := by
  rw [(sound_stream_update_hold (example_device 0 false) 100 (-50) 4 (by decide)
    (by decide)).1]
  rfl

end BSMT2000
